import Mathlib

/-!
Event selection of the HH→bbγγ analysis.

Shallow embedding of `include/Config.h`, `src/Config.cc`, `include/DataLoader.h`,
`src/Utils.cc` and `src/Selection.cc`, with `parseArgs`, `main` and the per-scheme gate
of the event loop of `run_analysis.cc`.

Modelling conventions.
* A C++ `double` (or `float`) is an exact rational number: the comparisons and the
  arithmetic of the source are the ones of `ℚ`, without rounding.  Which rationals are
  values of a `double` is the predicate `IsDouble`.
* The blinding predicates `passSideband` and `passSignalRegion` read the `mass` branch
  as a `Double`: a finite value, an infinity or NaN, compared as IEEE 754 compares
  them (every comparison with NaN is false).
* `EventSelector` is the record holding `cuts_`; its `const` methods are functions
  of the selector and of their arguments.
* The default argument `sentinel = -999.0` of `isSentinel` is passed explicitly at
  the call sites.
* A C++ `int` is an `Int` in the 32-bit range.  `static_cast<int>` of a value whose
  truncation is out of range is undefined and gives `none`; the increment `count++`
  of a counter wraps around in two's complement (`wrapInt32`).
* The record source is the list of its entries; the effects of `printCutflow` (error
  stream, branch binding, entries loaded, table rows) are the fields of the value it
  returns.  Row labels are text built with `std::to_string` and are not modelled.
* `std::exit(1)` in `parseArgs` is the result `ParseResult.exit 1 msg`, `msg` being
  the text written to the error stream.
* `main` is a function of the argument list and of what opening a file gives; its
  value records the exit code, the error stream, the file handed to the `DataLoader`
  constructor, the schemes it goes on to process and the cutflow tables it prints.
  Histogram booking, filling and drawing are not modelled.
-/

namespace Bbgg

/-! ## Config.h -/

def HIGGS_MASS : ℚ := 125
def BLIND_LOW : ℚ := 115
def BLIND_HIGH : ℚ := 135
def SENTINEL : ℚ := -999

/-- Thresholds of the selection, with the defaults of `Config.h`. -/
structure SelectionCuts where
  leadPtOverMgg : ℚ := 1 / 3
  subleadPtOverMgg : ℚ := 1 / 4
  mvaIdMin : ℚ := -7 / 10
  mggMin : ℚ := 100
  mggMax : ℚ := 180
  mjjMin : ℚ := 70
  mjjMax : ℚ := 190
  bjetPtMin : ℚ := 25
  nBLooseMin : Int := 1

/-- A jet-pairing scheme; the field `prefix` of the source is `prefix_` here. -/
structure JetPairingScheme where
  name : String
  prefix_ : String
  categoryFlag : String
  isResonant : Bool
  hasVbfBranches : Bool

/-! ## Config.cc -/

/-- The initializer of the static map of `getSchemes`, in source order. -/
def getSchemes : List (String × JetPairingScheme) :=
  [ ("nonRes", ⟨"Non-Resonant", "nonRes_", "is_nonRes", false, true⟩),
    ("nonResReg", ⟨"Non-Resonant (Reg)", "nonResReg_", "is_nonResReg", false, false⟩),
    ("nonResReg_DNNpair",
      ⟨"Non-Resonant (Reg, DNN pair)", "nonResReg_DNNpair_", "is_nonResReg_DNNpair",
        false, true⟩),
    ("nonResReg_vbfpair",
      ⟨"Non-Resonant (Reg, VBF pair)", "nonResReg_vbfpair_", "is_nonResReg_vbfpair",
        false, true⟩),
    ("Res", ⟨"Resonant", "Res_", "is_Res", true, false⟩),
    ("Res_DNNpair", ⟨"Resonant (DNN pair)", "Res_DNNpair_", "is_Res_DNNpair", true, false⟩) ]

/-- `getSchemes().find(key)`: the entry of `key`, `none` for `end()`. -/
def findScheme (key : String) : Option JetPairingScheme :=
  getSchemes.lookup key

/-! ## DataLoader.h -/

/-- Common event-level variables (scheme-independent). -/
structure EventData where
  run : Nat := 0
  event : Nat := 0
  lumi : Nat := 0
  weight : ℚ := 1
  eventWeight : ℚ := 1
  weight_central : ℚ := 1
  mass : ℚ := 0
  pt : ℚ := 0
  eta : ℚ := 0
  phi : ℚ := 0
  lead_pt : ℚ := 0
  lead_eta : ℚ := 0
  lead_phi : ℚ := 0
  lead_mvaID : ℚ := 0
  lead_r9 : ℚ := 0
  sublead_pt : ℚ := 0
  sublead_eta : ℚ := 0
  sublead_phi : ℚ := 0
  sublead_mvaID : ℚ := 0
  sublead_r9 : ℚ := 0
  is_nonRes : ℚ := 0
  is_nonResReg : ℚ := 0
  is_nonResReg_DNNpair : ℚ := 0
  is_nonResReg_vbfpair : ℚ := 0
  is_Res : ℚ := 0
  is_Res_DNNpair : ℚ := 0
  n_jets : ℚ := 0
  nBLoose : ℚ := 0
  nBMedium : ℚ := 0
  nBTight : ℚ := 0
  MultiBDT_output : List ℚ := [0, 0, 0, 0]
  alpha : ℚ := 0
  beta : ℚ := 0
  gamma : ℚ := 0
  D_ttH : ℚ := 0
  D_qcd : ℚ := 0
  puppiMET_pt : ℚ := 0
  puppiMET_phi : ℚ := 0
  sigma_m_over_m : ℚ := 0

/-- Per-scheme variables (prefix-dependent). -/
structure SchemeData where
  dijet_mass : ℚ := 0
  dijet_pt : ℚ := 0
  dijet_eta : ℚ := 0
  dijet_mass_DNNreg : ℚ := 0
  lead_bjet_pt : ℚ := 0
  lead_bjet_eta : ℚ := 0
  lead_bjet_phi : ℚ := 0
  lead_bjet_mass : ℚ := 0
  lead_bjet_btagPNetB : ℚ := 0
  lead_bjet_btagUParTAK4B : ℚ := 0
  sublead_bjet_pt : ℚ := 0
  sublead_bjet_eta : ℚ := 0
  sublead_bjet_phi : ℚ := 0
  sublead_bjet_mass : ℚ := 0
  sublead_bjet_btagPNetB : ℚ := 0
  sublead_bjet_btagUParTAK4B : ℚ := 0
  HHbbggCandidate_mass : ℚ := 0
  HHbbggCandidate_pt : ℚ := 0
  CosThetaStar_CS : ℚ := 0
  DeltaR_jg_min : ℚ := 0
  M_X : ℚ := 0
  chi_t0 : ℚ := 0
  chi_t1 : ℚ := 0
  pholead_PtOverM : ℚ := 0
  phosublead_PtOverM : ℚ := 0
  has_two_btagged_jets : ℚ := 0

/-- One entry of the tree: the event-level branches and, for each scheme key, the
branches carrying the prefix of that scheme. -/
structure TreeEntry where
  evt : EventData := {}
  scheme : String → SchemeData := fun _ => {}

/-- The record source: the entries `getEntry i` loads, `i = 0, …, getEntries() - 1`. -/
structure DataLoader where
  tree : List TreeEntry := []

/-- `DataLoader::getEntries`. -/
def DataLoader.getEntries (loader : DataLoader) : Nat :=
  loader.tree.length

/-! ## Values of type `double` -/

/-- The rational `q` is the value of a finite `double`: `m * 2 ^ e` with a significand
`|m| < 2 ^ 53` and an exponent `-1074 ≤ e ≤ 971`. -/
def IsDouble (q : ℚ) : Prop :=
  ∃ (m e : Int), |m| < 2 ^ 53 ∧ -1074 ≤ e ∧ e ≤ 971 ∧ q = (m : ℚ) * (2 : ℚ) ^ e

/-- What a `double` branch of the tree can hold: a finite value, an infinity or NaN. -/
inductive Double where
  | finite (q : ℚ)
  | posInf
  | negInf
  | nan

/-- The comparison `a < b` of two `double`s; `false` when either is NaN. -/
def Double.lt : Double → Double → Bool
  | .finite a, .finite b => decide (a < b)
  | .negInf, .finite _ => true
  | .negInf, .posInf => true
  | .finite _, .posInf => true
  | _, _ => false

/-- The comparison `a <= b` of two `double`s; `false` when either is NaN. -/
def Double.le : Double → Double → Bool
  | .finite a, .finite b => decide (a ≤ b)
  | .negInf, .finite _ => true
  | .negInf, .posInf => true
  | .negInf, .negInf => true
  | .finite _, .posInf => true
  | .posInf, .posInf => true
  | _, _ => false

/-- The part of `EventData` that the blinding predicates read, with every value the
`mass` branch can deliver. -/
structure EventDataIEEE where
  mass : Double

/-- An event of the rational model, seen by the blinding predicates. -/
def EventData.ieee (evt : EventData) : EventDataIEEE :=
  ⟨.finite evt.mass⟩

/-! ## Machine integers -/

/-- The value of an `int` after an arithmetic result `n`, in two's complement. -/
def wrapInt32 (n : Int) : Int :=
  (n + 2147483648) % 4294967296 - 2147483648

/-- `static_cast<int>(x)` for a `double` `x`: the fractional part is discarded; the
conversion is undefined (`none`) when the result is not an `int`. -/
def castToInt (x : ℚ) : Option Int :=
  if -2147483648 ≤ Int.tdiv x.num x.den ∧ Int.tdiv x.num x.den ≤ 2147483647 then
    some (Int.tdiv x.num x.den)
  else none

/-! ## Utils.cc -/

/-- `std::abs(val - sentinel) < 0.1`. -/
def isSentinel (val sentinel : ℚ) : Bool :=
  decide (abs (val - sentinel) < 1 / 10)

/-! ## Selection.cc -/

/-- The selector: the cut thresholds it was constructed with. -/
structure EventSelector where
  cuts_ : SelectionCuts := {}

namespace EventSelector

def passDiphotonMass (self : EventSelector) (evt : EventData) : Bool :=
  decide (evt.mass ≥ self.cuts_.mggMin) && decide (evt.mass ≤ self.cuts_.mggMax)

def passPhotonPt (self : EventSelector) (evt : EventData) : Bool :=
  if evt.mass ≤ 0 then false
  else decide (evt.lead_pt / evt.mass > self.cuts_.leadPtOverMgg) &&
       decide (evt.sublead_pt / evt.mass > self.cuts_.subleadPtOverMgg)

def passPhotonMvaId (self : EventSelector) (evt : EventData) : Bool :=
  decide (evt.lead_mvaID > self.cuts_.mvaIdMin) &&
  decide (evt.sublead_mvaID > self.cuts_.mvaIdMin)

def passDijetMass (self : EventSelector) (sd : SchemeData) : Bool :=
  if isSentinel sd.dijet_mass (-999) then false
  else decide (sd.dijet_mass ≥ self.cuts_.mjjMin) && decide (sd.dijet_mass ≤ self.cuts_.mjjMax)

def passBjetPt (self : EventSelector) (sd : SchemeData) : Bool :=
  if isSentinel sd.lead_bjet_pt (-999) then false
  else if isSentinel sd.sublead_bjet_pt (-999) then false
  else decide (sd.lead_bjet_pt > self.cuts_.bjetPtMin) &&
       decide (sd.sublead_bjet_pt > self.cuts_.bjetPtMin)

def passBtagMultiplicity (self : EventSelector) (evt : EventData) : Option Bool :=
  (castToInt evt.nBLoose).map (fun n => decide (n ≥ self.cuts_.nBLooseMin))

def passSchemeFlag (_self : EventSelector) (evt : EventData) (schemeKey : String) : Bool :=
  if schemeKey = "nonRes" then decide (evt.is_nonRes > 1 / 2)
  else if schemeKey = "nonResReg" then decide (evt.is_nonResReg > 1 / 2)
  else if schemeKey = "nonResReg_DNNpair" then decide (evt.is_nonResReg_DNNpair > 1 / 2)
  else if schemeKey = "nonResReg_vbfpair" then decide (evt.is_nonResReg_vbfpair > 1 / 2)
  else if schemeKey = "Res" then decide (evt.is_Res > 1 / 2)
  else if schemeKey = "Res_DNNpair" then decide (evt.is_Res_DNNpair > 1 / 2)
  else false

/-- `evt.mass < BLIND_LOW || evt.mass > BLIND_HIGH`. -/
def passSideband (_self : EventSelector) (evt : EventDataIEEE) : Bool :=
  Double.lt evt.mass (.finite BLIND_LOW) || Double.lt (.finite BLIND_HIGH) evt.mass

/-- `evt.mass >= BLIND_LOW && evt.mass <= BLIND_HIGH`. -/
def passSignalRegion (_self : EventSelector) (evt : EventDataIEEE) : Bool :=
  Double.le (.finite BLIND_LOW) evt.mass && Double.le evt.mass (.finite BLIND_HIGH)

def passPreselection (self : EventSelector) (evt : EventData) (sd : SchemeData)
    (schemeKey : String) : Bool :=
  if !self.passSchemeFlag evt schemeKey then false
  else if !self.passDiphotonMass evt then false
  else if !self.passPhotonPt evt then false
  else if !self.passPhotonMvaId evt then false
  else if !self.passDijetMass sd then false
  else if !self.passBjetPt sd then false
  else true

/-- `cutflow[step].count++` on the vector of the seven counters. -/
def bumpCount (cutflow : List Int) (step : Nat) : List Int :=
  cutflow.modify (fun c => wrapInt32 (c + 1)) step

/-- The body of the event loop of `printCutflow` for one loaded entry: the counters
after the entry, each `continue` leaving the later counters untouched. -/
def cutflowEntry (self : EventSelector) (schemeKey : String) (cutflow : List Int)
    (evt : EventData) (sd : SchemeData) : List Int :=
  let cutflow := bumpCount cutflow 0
  if !self.passSchemeFlag evt schemeKey then cutflow else
  let cutflow := bumpCount cutflow 1
  if !self.passDiphotonMass evt then cutflow else
  let cutflow := bumpCount cutflow 2
  if !self.passPhotonPt evt then cutflow else
  let cutflow := bumpCount cutflow 3
  if !self.passPhotonMvaId evt then cutflow else
  let cutflow := bumpCount cutflow 4
  if !self.passDijetMass sd then cutflow else
  let cutflow := bumpCount cutflow 5
  if !self.passBjetPt sd then cutflow else
  bumpCount cutflow 6

/-- The event loop of `printCutflow`: seven counters, initially 0, updated entry by
entry. -/
def cutflowLoop (self : EventSelector) (loader : DataLoader) (schemeKey : String) :
    List Int :=
  loader.tree.foldl
    (fun cutflow e => cutflowEntry self schemeKey cutflow e.evt (e.scheme schemeKey))
    [0, 0, 0, 0, 0, 0, 0]

/-- `(total > 0) ? 100.0 * c.count / total : 0.0`. -/
def efficiency (total count : Int) : ℚ :=
  if total > 0 then 100 * (count : ℚ) / (total : ℚ) else 0

/-- A printed table row: the survivor count and the efficiency in percent. -/
structure CutflowRow where
  count : Int
  eff : ℚ

/-- The rows of the table printed from the counters; `total` is `cutflow[0].count`. -/
def cutflowTable (cutflow : List Int) : List CutflowRow :=
  cutflow.map (fun c => ⟨c, efficiency (cutflow.headD 0) c⟩)

/-- What a call of `printCutflow` does: the lines written to the error stream,
whether the branches were bound, how many entries were loaded, the title line of the
table and its rows. -/
structure CutflowOutput where
  cerr : List String := []
  branchesBound : Bool := false
  entriesLoaded : Nat := 0
  title : Option String := none
  rows : List CutflowRow := []

def printCutflow (self : EventSelector) (loader : DataLoader) (schemeKey : String) :
    CutflowOutput :=
  match findScheme schemeKey with
  | none => { cerr := ["ERROR: Unknown scheme '" ++ schemeKey ++ "' for cutflow"] }
  | some scheme =>
    { branchesBound := true
      entriesLoaded := loader.getEntries
      title := some ("\n===== Cutflow: " ++ scheme.name ++ " (" ++ schemeKey ++ ") =====")
      rows := cutflowTable (cutflowLoop self loader schemeKey) }

end EventSelector

/-! ## run_analysis.cc -/

/-- The two `continue` guards that open the per-scheme block of the event loop in
`main`: the histograms of scheme `key` are filled for this event iff the result
is `true`. -/
def schemeBlockFills (selector : EventSelector) (evt : EventData) (sd : SchemeData)
    (key : String) : Bool :=
  if !selector.passSchemeFlag evt key then false
  else if !selector.passPreselection evt sd key then false
  else true

/-- The six scheme keys that `passSchemeFlag` dispatches on, in source order. -/
def schemeFlagKeys : List String :=
  ["nonRes", "nonResReg", "nonResReg_DNNpair", "nonResReg_vbfpair", "Res", "Res_DNNpair"]

/-- The command-line options, with the defaults of the source. -/
structure CLIArgs where
  input : String := "data/all_data_full.root"
  outputDir : String := "plots"
  schemes : List String := []
  noBlind : Bool := false
  cutflowOnly : Bool := false

/-- How `parseArgs` ends: it returns the options, or it calls `std::exit(code)` after
writing `cerr` to the error stream. -/
inductive ParseResult where
  | ok (args : CLIArgs)
  | exit (code : Nat) (cerr : String)

/-- The text written to the error stream for the argument `a`. -/
def usageMessage (a : String) : String :=
  "Unknown argument: " ++ a ++ "\n" ++
    "Usage: run_analysis [--input FILE] [--output-dir DIR] " ++
    "[--schemes s1 s2 ...] [--no-blind] [--cutflow-only]\n"

/-- `s[0]` of a C string: its first character, the terminating NUL for `""`. -/
def firstChar (s : String) : Char :=
  s.data.headD (Char.ofNat 0)

/-- The loop `while (i + 1 < argc && argv[i + 1][0] != '-') schemes.push_back(argv[++i])`
on the arguments after `--schemes`: the scheme list after the loop and the arguments
left for the `for` loop. -/
def schemesWhile : List String → List String → List String × List String
  | schemes, [] => (schemes, [])
  | schemes, v :: rest =>
    if firstChar v ≠ '-' then schemesWhile (schemes ++ [v]) rest else (schemes, v :: rest)

/-- The `for` loop of `parseArgs` on the arguments from `argv[i]` on. -/
def parseLoop : List String → CLIArgs → ParseResult
  | [], args => .ok args
  | a :: rest, args =>
    if a = "--input" ∧ rest ≠ [] then
      parseLoop rest.tail { args with input := rest.headD "" }
    else if a = "--output-dir" ∧ rest ≠ [] then
      parseLoop rest.tail { args with outputDir := rest.headD "" }
    else if a = "--no-blind" then parseLoop rest { args with noBlind := true }
    else if a = "--cutflow-only" then parseLoop rest { args with cutflowOnly := true }
    else if a = "--schemes" then
      parseLoop (schemesWhile args.schemes rest).2
        { args with schemes := (schemesWhile args.schemes rest).1 }
    else .exit 1 (usageMessage a)
termination_by l => l.length
decreasing_by
  all_goals simp_wf
  · have := List.length_tail rest; omega
  · have := List.length_tail rest; omega
  · have h : ∀ (l s : List String), (schemesWhile s l).2.length ≤ l.length := by
      intro l
      induction l with
      | nil => intro _; simp [schemesWhile]
      | cons v t ih =>
        intro s
        unfold schemesWhile
        split
        · exact Nat.le_succ_of_le (ih _)
        · simp
    have := h rest args.schemes
    omega

/-- `parseArgs(argc, argv)` on the arguments `argv[1], …, argv[argc - 1]`. -/
def parseArgs (argv : List String) : ParseResult :=
  parseLoop argv {}

/-- Truncation toward zero, as the specification words it: the floor of a
non-negative value, the ceiling of a negative one. -/
def truncTowardZero (x : ℚ) : Int :=
  if 0 ≤ x then ⌊x⌋ else ⌈x⌉

/-- The fixed cut sequence of the specification, after the unconditional first step:
scheme flag, diphoton mass, photon pT, photon MVA-ID, dijet mass, b-jet pT. -/
def cutSequence (self : EventSelector) (schemeKey : String) :
    List (EventData → SchemeData → Bool) :=
  [ fun evt _ => self.passSchemeFlag evt schemeKey,
    fun evt _ => self.passDiphotonMass evt,
    fun evt _ => self.passPhotonPt evt,
    fun evt _ => self.passPhotonMvaId evt,
    fun _ sd => self.passDijetMass sd,
    fun _ sd => self.passBjetPt sd ]

/-- The record passes all of the first `k` cuts of the sequence. -/
def passesFirst (self : EventSelector) (schemeKey : String) (k : Nat)
    (evt : EventData) (sd : SchemeData) : Bool :=
  ((cutSequence self schemeKey).take k).all (fun cut => cut evt sd)

/-- The number of entries of the source that pass all of the first `k` cuts. -/
def survivors (self : EventSelector) (loader : DataLoader) (schemeKey : String)
    (k : Nat) : Nat :=
  loader.tree.countP (fun e => passesFirst self schemeKey k e.evt (e.scheme schemeKey))

/-- The total of a printed table: the count of its first row (0 for no row). -/
def EventSelector.CutflowOutput.total (out : EventSelector.CutflowOutput) : Int :=
  (out.rows.map EventSelector.CutflowRow.count).headD 0

/-- The argument begins with `'-'`. -/
def beginsWithDash (s : String) : Bool :=
  s.data.head? == some '-'

/-- The five options of the command line. -/
def cliFlags : List String :=
  ["--input", "--output-dir", "--schemes", "--no-blind", "--cutflow-only"]

/-- The scheme list as the specification words it: each occurrence of `--schemes`
contributes, in order, the maximal run of the arguments right after it that do not
begin with `'-'`. -/
def specSchemes : List String → List String
  | [] => []
  | a :: rest =>
    (if a = "--schemes" then rest.takeWhile (fun s => !beginsWithDash s) else []) ++
      specSchemes rest

/-- The arguments a left-to-right scan reaches when it skips the value after `--input`
and `--output-dir` and the run of values after `--schemes`. -/
def reachedArgs : List String → List String
  | [] => []
  | a :: rest =>
    if (a = "--input" ∨ a = "--output-dir") ∧ rest ≠ [] then a :: reachedArgs rest.tail
    else if a = "--schemes" then
      a :: reachedArgs (rest.dropWhile (fun s => !beginsWithDash s))
    else a :: reachedArgs rest
termination_by l => l.length
decreasing_by
  all_goals simp_wf
  · have := List.length_tail rest; omega
  · have : (rest.dropWhile (fun s => !beginsWithDash s)).length ≤ rest.length :=
      (List.dropWhile_sublist _).length_le
    omega

/-- The category flag of the event for a scheme key: the field `is_<key>`, for the
six scheme keys. -/
def categoryFlag (evt : EventData) (key : String) : Option ℚ :=
  [ ("nonRes", evt.is_nonRes), ("nonResReg", evt.is_nonResReg),
    ("nonResReg_DNNpair", evt.is_nonResReg_DNNpair),
    ("nonResReg_vbfpair", evt.is_nonResReg_vbfpair),
    ("Res", evt.is_Res), ("Res_DNNpair", evt.is_Res_DNNpair) ].lookup key

/-! ## Concrete records used in the evaluations below -/

/-- Cuts whose photon thresholds lie below the sentinel band; the others are the
defaults. -/
def lowPhotonCuts : SelectionCuts :=
  { leadPtOverMgg := -10, subleadPtOverMgg := -10, mvaIdMin := -1000 }

/-- An event in scheme `nonRes` with diphoton mass 125 whose photon pT and MVA-ID
fields all hold the sentinel -999. -/
def sentinelPhotonEvent : EventData :=
  { is_nonRes := 1, mass := 125, lead_pt := -999, sublead_pt := -999,
    lead_mvaID := -999, sublead_mvaID := -999 }

/-- A scheme record passing the default dijet and b-jet cuts. -/
def goodScheme : SchemeData :=
  { dijet_mass := 125, lead_bjet_pt := 50, sublead_bjet_pt := 40 }

/-- An event whose selection fields all hold the sentinel -999. -/
def allSentinelEvent : EventData :=
  { is_nonRes := 1, mass := -999, lead_pt := -999, sublead_pt := -999,
    lead_mvaID := -999, sublead_mvaID := -999 }

/-- A scheme record whose selection fields all hold the sentinel -999. -/
def allSentinelScheme : SchemeData :=
  { dijet_mass := -999, lead_bjet_pt := -999, sublead_bjet_pt := -999 }

/-- The event of the spec scenario: mass 125, lead pT 50, sublead pT 40. -/
def scenarioEvent : EventData :=
  { mass := 125, lead_pt := 50, sublead_pt := 40 }

/-- Ten entries for scheme `nonRes`: seven without the scheme flag, one with the flag
and a diphoton mass of 50 outside the window, two with the flag and mass 125 whose
photon pT are 0. -/
def tenEntries : DataLoader :=
  { tree :=
      List.replicate 7 { evt := { mass := 125 } } ++
      [{ evt := { is_nonRes := 1, mass := 50 } }] ++
      List.replicate 2 { evt := { is_nonRes := 1, mass := 125 } } }

/-- The entries of `tenEntries` with other loose b-tag counts. -/
def tenEntriesBtag : DataLoader :=
  { tree :=
      List.replicate 7 { evt := { mass := 125, nBLoose := 2 } } ++
      [{ evt := { is_nonRes := 1, mass := 50, nBLoose := 3 } }] ++
      List.replicate 2 { evt := { is_nonRes := 1, mass := 125, nBLoose := 1 } } }

/-- A source of `2^31` entries for scheme `nonRes`: the first without the scheme flag,
the other `2^31 - 1` with it. -/
def overflowEntries : DataLoader :=
  { tree := { evt := {} } :: List.replicate 2147483647 { evt := { is_nonRes := 1 } } }

/-- An entry that passes every default cut for scheme `nonRes`. -/
def passingEntry : TreeEntry :=
  { evt := { is_nonRes := 1, mass := 125, lead_pt := 50, sublead_pt := 40 }
    scheme := fun _ => goodScheme }

/-- An entry with the `nonRes` flag and a diphoton mass of 185: above the default
window `[100, 180]`, inside `[100, 190]`. -/
def mass185Entry : TreeEntry :=
  { evt := { is_nonRes := 1, mass := 185 } }

/-- The default cuts with the diphoton window widened to `[100, 190]`. -/
def widerMassCuts : SelectionCuts :=
  { mggMax := 190 }

/-! ## Theorems -/

open EventSelector

/-! ### Auxiliary facts on machine integers -/

theorem tdiv_num_den (x : ℚ) : Int.tdiv x.num x.den = truncTowardZero x := by
  unfold truncTowardZero
  by_cases h : 0 ≤ x
  · rw [if_pos h, Int.tdiv_eq_ediv (Rat.num_nonneg.mpr h) (Int.natCast_nonneg _)]
    exact (Rat.floor_def' x).symm
  · rw [if_neg h]
    have hx : 0 ≤ -x := by linarith
    have h1 : Int.tdiv x.num x.den = -Int.tdiv (-x).num (-x).den := by
      rw [Rat.neg_num, Rat.neg_den, Int.neg_tdiv, neg_neg]
    rw [h1, Int.tdiv_eq_ediv (Rat.num_nonneg.mpr hx) (Int.natCast_nonneg _)]
    have h2 : (-x).num / ((-x).den : Int) = ⌊-x⌋ := (Rat.floor_def' (-x)).symm
    rw [h2, Int.floor_neg, neg_neg]

theorem truncTowardZero_range (x : ℚ) (h1 : -2147483648 ≤ x) (h2 : x ≤ 2147483647) :
    -2147483648 ≤ truncTowardZero x ∧ truncTowardZero x ≤ 2147483647 := by
  unfold truncTowardZero
  split_ifs with h
  · constructor
    · exact Int.le_floor.mpr (by push_cast; linarith)
    · have := Int.floor_le x
      exact_mod_cast (this.trans h2)
  · constructor
    · have := Int.le_ceil x
      exact_mod_cast (h1.trans this)
    · exact Int.ceil_le.mpr (by push_cast; linarith)

theorem castToInt_of_range (x : ℚ) (h1 : -2147483648 ≤ x) (h2 : x ≤ 2147483647) :
    castToInt x = some (truncTowardZero x) := by
  unfold castToInt
  rw [tdiv_num_den, if_pos (truncTowardZero_range x h1 h2)]

theorem wrapInt32_of_range (n : Int) (h1 : -2147483648 ≤ n) (h2 : n ≤ 2147483647) :
    wrapInt32 n = n := by
  unfold wrapInt32; omega

theorem wrapInt32_succ (n : Int) : wrapInt32 (wrapInt32 n + 1) = wrapInt32 (n + 1) := by
  unfold wrapInt32; omega

theorem iterate_bump_zero (n : Nat) :
    (fun c => wrapInt32 (c + 1))^[n] 0 = wrapInt32 n := by
  induction n with
  | zero => rfl
  | succ n ih =>
    rw [Function.iterate_succ_apply', ih]
    simp only [wrapInt32_succ]
    push_cast
    rfl

/-! ### Auxiliary facts on the cutflow loop -/

theorem cutflowEntry_seven (self : EventSelector) (key : String) (a0 a1 a2 a3 a4 a5 a6 : Int)
    (evt : EventData) (sd : SchemeData) :
    cutflowEntry self key [a0, a1, a2, a3, a4, a5, a6] evt sd =
      [ if passesFirst self key 0 evt sd then wrapInt32 (a0 + 1) else a0,
        if passesFirst self key 1 evt sd then wrapInt32 (a1 + 1) else a1,
        if passesFirst self key 2 evt sd then wrapInt32 (a2 + 1) else a2,
        if passesFirst self key 3 evt sd then wrapInt32 (a3 + 1) else a3,
        if passesFirst self key 4 evt sd then wrapInt32 (a4 + 1) else a4,
        if passesFirst self key 5 evt sd then wrapInt32 (a5 + 1) else a5,
        if passesFirst self key 6 evt sd then wrapInt32 (a6 + 1) else a6 ] := by
  unfold cutflowEntry passesFirst cutSequence bumpCount
  cases h1 : self.passSchemeFlag evt key <;> cases h2 : self.passDiphotonMass evt <;>
    cases h3 : self.passPhotonPt evt <;> cases h4 : self.passPhotonMvaId evt <;>
    cases h5 : self.passDijetMass sd <;> cases h6 : self.passBjetPt sd <;>
    simp [List.modify, List.modifyHead, List.modifyTailIdx, h1, h2, h3, h4, h5, h6]

theorem iterate_bump_countP {α : Type} (p : α → Bool) (e : α) (t : List α) (a : Int) :
    (fun c => wrapInt32 (c + 1))^[t.countP p] (if p e then wrapInt32 (a + 1) else a) =
      (fun c => wrapInt32 (c + 1))^[(e :: t).countP p] a := by
  rw [List.countP_cons]
  cases h : p e
  · simp
  · simp [Function.iterate_succ_apply]

theorem cutflow_foldl (self : EventSelector) (key : String) (tree : List TreeEntry)
    (a0 a1 a2 a3 a4 a5 a6 : Int) :
    tree.foldl (fun cutflow e => cutflowEntry self key cutflow e.evt (e.scheme key))
        [a0, a1, a2, a3, a4, a5, a6] =
      [ (fun c => wrapInt32 (c + 1))^[survivors self ⟨tree⟩ key 0] a0,
        (fun c => wrapInt32 (c + 1))^[survivors self ⟨tree⟩ key 1] a1,
        (fun c => wrapInt32 (c + 1))^[survivors self ⟨tree⟩ key 2] a2,
        (fun c => wrapInt32 (c + 1))^[survivors self ⟨tree⟩ key 3] a3,
        (fun c => wrapInt32 (c + 1))^[survivors self ⟨tree⟩ key 4] a4,
        (fun c => wrapInt32 (c + 1))^[survivors self ⟨tree⟩ key 5] a5,
        (fun c => wrapInt32 (c + 1))^[survivors self ⟨tree⟩ key 6] a6 ] := by
  induction tree generalizing a0 a1 a2 a3 a4 a5 a6 with
  | nil => simp [survivors]
  | cons e t ih =>
    rw [List.foldl_cons, cutflowEntry_seven, ih]
    have hk : ∀ (k : Nat) (a : Int),
        (fun c => wrapInt32 (c + 1))^[t.countP
            (fun e => passesFirst self key k e.evt (e.scheme key))]
          (if passesFirst self key k e.evt (e.scheme key) then wrapInt32 (a + 1) else a) =
        (fun c => wrapInt32 (c + 1))^[(e :: t).countP
            (fun e => passesFirst self key k e.evt (e.scheme key))] a :=
      fun k a =>
        iterate_bump_countP (fun e : TreeEntry => passesFirst self key k e.evt (e.scheme key))
          e t a
    simp only [survivors, hk]

/-- The counters after the loop: each is the wrapped number of survivors of its step. -/
theorem cutflowLoop_eq (self : EventSelector) (loader : DataLoader) (key : String) :
    cutflowLoop self loader key =
      [ wrapInt32 (survivors self loader key 0), wrapInt32 (survivors self loader key 1),
        wrapInt32 (survivors self loader key 2), wrapInt32 (survivors self loader key 3),
        wrapInt32 (survivors self loader key 4), wrapInt32 (survivors self loader key 5),
        wrapInt32 (survivors self loader key 6) ] := by
  unfold cutflowLoop
  rw [cutflow_foldl]
  simp only [iterate_bump_zero]

theorem survivors_zero (self : EventSelector) (loader : DataLoader) (key : String) :
    survivors self loader key 0 = loader.getEntries := by
  simp [survivors, passesFirst, DataLoader.getEntries]

theorem survivors_le_getEntries (self : EventSelector) (loader : DataLoader) (key : String)
    (k : Nat) : survivors self loader key k ≤ loader.getEntries := by
  unfold survivors DataLoader.getEntries
  exact List.countP_le_length _

theorem survivors_anti (self : EventSelector) (loader : DataLoader) (key : String)
    (k : Nat) : survivors self loader key (k + 1) ≤ survivors self loader key k := by
  unfold survivors
  apply List.countP_mono_left
  intro e _ h
  simp only [passesFirst, List.all_eq_true] at h ⊢
  intro cut hcut
  exact h cut (List.take_subset_take_left (cutSequence self key) (Nat.le_succ k) hcut)

theorem wrapInt32_survivors (self : EventSelector) (loader : DataLoader) (key : String)
    (k : Nat) (hN : loader.getEntries < 2147483648) :
    wrapInt32 (survivors self loader key k) = survivors self loader key k := by
  have := survivors_le_getEntries self loader key k
  apply wrapInt32_of_range <;> omega

theorem printCutflow_of_registered (self : EventSelector) (loader : DataLoader)
    (key : String) (h : findScheme key ≠ none) :
    (printCutflow self loader key).rows = cutflowTable (cutflowLoop self loader key) ∧
      (printCutflow self loader key).cerr = [] ∧
      (printCutflow self loader key).branchesBound = true ∧
      (printCutflow self loader key).entriesLoaded = loader.getEntries := by
  unfold printCutflow
  cases hf : findScheme key with
  | none => exact absurd hf h
  | some sch => simp

theorem findScheme_nonRes : findScheme "nonRes" ≠ none := by
  simp [findScheme, getSchemes, List.lookup]

theorem cutflowTable_counts (cutflow : List Int) :
    (cutflowTable cutflow).map CutflowRow.count = cutflow := by
  simp [cutflowTable, Function.comp_def]

/-- For fewer than `2^31` entries the counters are the survivor numbers themselves. -/
theorem cutflowLoop_small (self : EventSelector) (loader : DataLoader) (key : String)
    (hN : loader.getEntries < 2147483648) :
    cutflowLoop self loader key =
      [ (loader.getEntries : Int), (survivors self loader key 1 : Int),
        (survivors self loader key 2 : Int), (survivors self loader key 3 : Int),
        (survivors self loader key 4 : Int), (survivors self loader key 5 : Int),
        (survivors self loader key 6 : Int) ] := by
  rw [cutflowLoop_eq]
  simp only [wrapInt32_survivors self loader key _ hN]
  rw [survivors_zero]

/-- For fewer than `2^31` entries the counters are non-negative and non-increasing. -/
theorem cutflowLoop_antitone_small (self : EventSelector) (loader : DataLoader)
    (key : String) (hN : loader.getEntries < 2147483648) :
    List.Chain' (fun a b : Int => a ≥ b) (cutflowLoop self loader key) ∧
      ∀ c ∈ cutflowLoop self loader key, (0 : Int) ≤ c := by
  rw [cutflowLoop_small self loader key hN, ← survivors_zero self loader key]
  have h0 := survivors_anti self loader key 0
  have h1 := survivors_anti self loader key 1
  have h2 := survivors_anti self loader key 2
  have h3 := survivors_anti self loader key 3
  have h4 := survivors_anti self loader key 4
  have h5 := survivors_anti self loader key 5
  constructor
  · simp only [List.chain'_cons, List.chain'_singleton, ge_iff_le, Nat.cast_le, and_true]
    exact ⟨h0, h1, h2, h3, h4, h5⟩
  · intro c hc
    simp only [List.mem_cons, List.mem_singleton, List.not_mem_nil, or_false] at hc
    rcases hc with h | h | h | h | h | h | h <;> rw [h] <;> exact Int.natCast_nonneg _

theorem cutflowEntry_btag (cuts : SelectionCuts) (m : Int) (key : String)
    (cutflow : List Int) (evt : EventData) (x : ℚ) (sd : SchemeData) :
    cutflowEntry ⟨{ cuts with nBLooseMin := m }⟩ key cutflow { evt with nBLoose := x } sd =
      cutflowEntry ⟨cuts⟩ key cutflow evt sd := rfl

/-- A source made of one entry without the `nonRes` flag followed by `n` default
entries carrying it: all are counted at step 0, `n` pass the flag, none the mass
window. -/
theorem survivors_flagged (n : Nat) :
    survivors {} ⟨{ evt := {} } :: List.replicate n { evt := { is_nonRes := 1 } }⟩ "nonRes" 0
        = n + 1 ∧
      survivors {} ⟨{ evt := {} } :: List.replicate n { evt := { is_nonRes := 1 } }⟩ "nonRes" 1
        = n ∧
      survivors {} ⟨{ evt := {} } :: List.replicate n { evt := { is_nonRes := 1 } }⟩ "nonRes" 2
        = 0 := by
  refine ⟨?_, ?_, ?_⟩
  · simp [survivors_zero, DataLoader.getEntries]
  · simp [survivors, passesFirst, cutSequence, List.countP_cons, List.countP_replicate,
      passSchemeFlag]
    norm_num
  · simp [survivors, passesFirst, cutSequence, List.countP_cons, List.countP_replicate,
      passSchemeFlag, passDiphotonMass]

theorem survivors_tenEntries :
    survivors {} tenEntries "nonRes" 0 = 10 ∧ survivors {} tenEntries "nonRes" 1 = 3 ∧
      survivors {} tenEntries "nonRes" 2 = 2 ∧ survivors {} tenEntries "nonRes" 3 = 0 ∧
      survivors {} tenEntries "nonRes" 4 = 0 ∧ survivors {} tenEntries "nonRes" 5 = 0 ∧
      survivors {} tenEntries "nonRes" 6 = 0 := by
  have s0 : survivors {} tenEntries "nonRes" 0 = 10 := by
    simp [survivors_zero, DataLoader.getEntries, tenEntries]
  have s1 : survivors {} tenEntries "nonRes" 1 = 3 := by
    simp [survivors, tenEntries, passesFirst, cutSequence, List.countP_cons, passSchemeFlag]
    norm_num
  have s2 : survivors {} tenEntries "nonRes" 2 = 2 := by
    simp [survivors, tenEntries, passesFirst, cutSequence, List.countP_cons, passSchemeFlag,
      passDiphotonMass]
    norm_num
  have s3 : survivors {} tenEntries "nonRes" 3 = 0 := by
    simp [survivors, tenEntries, passesFirst, cutSequence, List.countP_cons, passSchemeFlag,
      passDiphotonMass, passPhotonPt]
  have a3 : survivors {} tenEntries "nonRes" 4 ≤ survivors {} tenEntries "nonRes" 3 :=
    survivors_anti {} tenEntries "nonRes" 3
  have a4 : survivors {} tenEntries "nonRes" 5 ≤ survivors {} tenEntries "nonRes" 4 :=
    survivors_anti {} tenEntries "nonRes" 4
  have a5 : survivors {} tenEntries "nonRes" 6 ≤ survivors {} tenEntries "nonRes" 5 :=
    survivors_anti {} tenEntries "nonRes" 5
  exact ⟨s0, s1, s2, s3, by omega, by omega, by omega⟩

theorem cutflowLoop_tenEntries :
    cutflowLoop {} tenEntries "nonRes" = [10, 3, 2, 0, 0, 0, 0] := by
  obtain ⟨s0, s1, s2, s3, s4, s5, s6⟩ := survivors_tenEntries
  rw [cutflowLoop_eq, s0, s1, s2, s3, s4, s5, s6]
  norm_num [wrapInt32]

theorem printCutflow_tenEntries_rows :
    (printCutflow {} tenEntries "nonRes").rows =
      [⟨10, 100⟩, ⟨3, 30⟩, ⟨2, 20⟩, ⟨0, 0⟩, ⟨0, 0⟩, ⟨0, 0⟩, ⟨0, 0⟩] := by
  rw [(printCutflow_of_registered {} tenEntries "nonRes" findScheme_nonRes).1,
    cutflowLoop_tenEntries]
  norm_num [cutflowTable, efficiency]

theorem printCutflow_empty_rows :
    (printCutflow {} {} "nonRes").rows =
      [⟨0, 0⟩, ⟨0, 0⟩, ⟨0, 0⟩, ⟨0, 0⟩, ⟨0, 0⟩, ⟨0, 0⟩, ⟨0, 0⟩] := by
  rw [(printCutflow_of_registered {} {} "nonRes" findScheme_nonRes).1]
  simp [cutflowLoop, cutflowTable, efficiency]

theorem cutflowLoop_length (self : EventSelector) (loader : DataLoader) (key : String) :
    (cutflowLoop self loader key).length = 7 := by
  rw [cutflowLoop_eq]
  simp only [List.length_cons, List.length_nil]

theorem cutflowLoop_head (self : EventSelector) (loader : DataLoader) (key : String) :
    (cutflowLoop self loader key).headD 0 = wrapInt32 loader.getEntries := by
  rw [cutflowLoop_eq, survivors_zero, List.headD_cons]

theorem getSchemes_keys : getSchemes.map Prod.fst = schemeFlagKeys := rfl

theorem findScheme_eq_none_iff (key : String) :
    findScheme key = none ↔ key ∉ getSchemes.map Prod.fst := by
  rw [getSchemes_keys]
  simp only [findScheme, getSchemes, schemeFlagKeys, List.mem_cons, List.mem_singleton,
    List.not_mem_nil, or_false, not_or]
  by_cases h1 : key = "nonRes"
  · subst h1; simp [List.lookup]
  by_cases h2 : key = "nonResReg"
  · subst h2; simp [List.lookup]
  by_cases h3 : key = "nonResReg_DNNpair"
  · subst h3; simp [List.lookup]
  by_cases h4 : key = "nonResReg_vbfpair"
  · subst h4; simp [List.lookup]
  by_cases h5 : key = "Res"
  · subst h5; simp [List.lookup]
  by_cases h6 : key = "Res_DNNpair"
  · subst h6; simp [List.lookup]
  have b1 : (key == "nonRes") = false := by simpa using h1
  have b2 : (key == "nonResReg") = false := by simpa using h2
  have b3 : (key == "nonResReg_DNNpair") = false := by simpa using h3
  have b4 : (key == "nonResReg_vbfpair") = false := by simpa using h4
  have b5 : (key == "Res") = false := by simpa using h5
  have b6 : (key == "Res_DNNpair") = false := by simpa using h6
  simp [List.lookup, h1, h2, h3, h4, h5, h6, b1, b2, b3, b4, b5, b6]

/-! ### Auxiliary facts on `parseArgs` -/

theorem firstChar_ne_dash (s : String) :
    firstChar s ≠ '-' ↔ beginsWithDash s = false := by
  unfold firstChar beginsWithDash
  cases h : s.data with
  | nil => simp
  | cons c t => simp

theorem schemesWhile_eq (l schemes : List String) :
    schemesWhile schemes l =
      (schemes ++ l.takeWhile (fun s => !beginsWithDash s),
        l.dropWhile (fun s => !beginsWithDash s)) := by
  induction l generalizing schemes with
  | nil => simp [schemesWhile]
  | cons v t ih =>
    unfold schemesWhile
    by_cases hv : firstChar v ≠ '-'
    · have hb := (firstChar_ne_dash v).mp hv
      rw [if_pos hv, ih]
      simp [List.takeWhile_cons, List.dropWhile_cons, hb]
    · have hb : beginsWithDash v = true := by
        rw [firstChar_ne_dash] at hv
        simpa using hv
      rw [if_neg hv]
      simp [List.takeWhile_cons, List.dropWhile_cons, hb]

theorem parseLoop_schemes_step (rest : List String) (args : CLIArgs) :
    parseLoop ("--schemes" :: rest) args =
      parseLoop (rest.dropWhile (fun s => !beginsWithDash s))
        { args with schemes := args.schemes ++ rest.takeWhile (fun s => !beginsWithDash s) } := by
  rw [parseLoop]
  simp [schemesWhile_eq]

theorem parseLoop_unknown (a : String) (rest : List String) (args : CLIArgs)
    (h : a ∉ cliFlags) : parseLoop (a :: rest) args = .exit 1 (usageMessage a) := by
  simp only [cliFlags, List.mem_cons, List.mem_singleton, List.not_mem_nil, or_false,
    not_or] at h
  obtain ⟨h1, h2, h3, h4, h5⟩ := h
  rw [parseLoop]
  simp [h1, h2, h3, h4, h5]

theorem parseLoop_ok_head (a : String) (rest : List String) (args res : CLIArgs)
    (h : parseLoop (a :: rest) args = .ok res) : a ∈ cliFlags := by
  by_contra hn
  rw [parseLoop_unknown a rest args hn] at h
  cases h

theorem beginsWithDash_of_mem_cliFlags {a : String} (h : a ∈ cliFlags) :
    beginsWithDash a = true := by
  simp only [cliFlags, List.mem_cons, List.mem_singleton, List.not_mem_nil, or_false] at h
  rcases h with rfl | rfl | rfl | rfl | rfl <;> decide

theorem specSchemes_dropWhile (l : List String) :
    specSchemes (l.dropWhile (fun s => !beginsWithDash s)) = specSchemes l := by
  induction l with
  | nil => rfl
  | cons v t ih =>
    rw [List.dropWhile_cons]
    by_cases hb : beginsWithDash v = true
    · simp [hb]
    · have hb2 : beginsWithDash v = false := by simpa using hb
      have hv : v ≠ "--schemes" := by
        rintro rfl
        exact absurd hb2 (by decide)
      simp [hb2, ih, specSchemes, hv]

/-- An accepted argument list leaves no run of scheme names behind its first
argument: that argument is an option and begins with a dash. -/
theorem takeWhile_of_parseLoop_ok (l : List String) (args res : CLIArgs)
    (h : parseLoop l args = .ok res) :
    l.takeWhile (fun s => !beginsWithDash s) = [] := by
  cases l with
  | nil => rfl
  | cons a rest =>
    have hb := beginsWithDash_of_mem_cliFlags (parseLoop_ok_head a rest args res h)
    simp [List.takeWhile_cons, hb]

theorem parseLoop_ok_schemes (n : Nat) :
    ∀ (l : List String) (args res : CLIArgs), l.length ≤ n →
      parseLoop l args = .ok res → res.schemes = args.schemes ++ specSchemes l := by
  induction n with
  | zero =>
    intro l args res hl h
    have : l = [] := List.length_eq_zero.mp (Nat.le_zero.mp hl)
    subst this
    rw [parseLoop] at h
    cases h
    simp [specSchemes]
  | succ n ih =>
    intro l args res hl h
    cases l with
    | nil =>
      rw [parseLoop] at h
      cases h
      simp [specSchemes]
    | cons a rest =>
      have hlen : rest.length ≤ n := by simpa using hl
      by_cases c1 : a = "--input" ∧ rest ≠ []
      · obtain ⟨rfl, hr⟩ := c1
        cases rest with
        | nil => exact absurd rfl hr
        | cons v rest2 =>
          rw [parseLoop] at h
          simp only [true_and, ne_eq, not_false_eq_true, if_true, List.tail_cons,
            List.headD_cons, reduceCtorEq] at h
          have h2 := ih rest2 _ res (by simp at hlen; omega) h
          have ht := takeWhile_of_parseLoop_ok rest2 _ res h
          rw [h2]
          simp [specSchemes, ht]
      by_cases c2 : a = "--output-dir" ∧ rest ≠ []
      · obtain ⟨rfl, hr⟩ := c2
        cases rest with
        | nil => exact absurd rfl hr
        | cons v rest2 =>
          rw [parseLoop] at h
          simp only [true_and, ne_eq, not_false_eq_true, if_true, List.tail_cons,
            List.headD_cons, reduceCtorEq, String.reduceEq, false_and, if_false] at h
          have h2 := ih rest2 _ res (by simp at hlen; omega) h
          have ht := takeWhile_of_parseLoop_ok rest2 _ res h
          rw [h2]
          simp [specSchemes, ht]
      by_cases c3 : a = "--no-blind"
      · subst c3
        rw [parseLoop] at h
        simp only [String.reduceEq, false_and, if_false, if_true] at h
        rw [ih rest _ res hlen h]
        simp [specSchemes]
      by_cases c4 : a = "--cutflow-only"
      · subst c4
        rw [parseLoop] at h
        simp only [String.reduceEq, false_and, if_false, if_true] at h
        rw [ih rest _ res hlen h]
        simp [specSchemes]
      by_cases c5 : a = "--schemes"
      · subst c5
        rw [parseLoop_schemes_step] at h
        have hd : (rest.dropWhile (fun s => !beginsWithDash s)).length ≤ n :=
          le_trans (List.dropWhile_sublist _).length_le hlen
        rw [ih _ _ res hd h, specSchemes_dropWhile]
        simp [specSchemes]
      · rw [parseLoop] at h
        simp [c1, c2, c3, c4, c5] at h

theorem head_mem_reachedArgs (a : String) (rest : List String) :
    a ∈ reachedArgs (a :: rest) := by
  rw [reachedArgs]
  split_ifs <;> simp

theorem parseLoop_reached (n : Nat) :
    ∀ (l : List String) (args : CLIArgs), l.length ≤ n →
      (∃ b, b ∈ reachedArgs l ∧ b ∉ cliFlags) →
      ∃ b, b ∈ reachedArgs l ∧ b ∉ cliFlags ∧ parseLoop l args = .exit 1 (usageMessage b) := by
  induction n with
  | zero =>
    intro l args hl h
    have : l = [] := List.length_eq_zero.mp (Nat.le_zero.mp hl)
    subst this
    obtain ⟨b, hb, _⟩ := h
    rw [reachedArgs] at hb
    simp at hb
  | succ n ih =>
    intro l args hl h
    cases l with
    | nil =>
      obtain ⟨b, hb, _⟩ := h
      rw [reachedArgs] at hb
      simp at hb
    | cons a rest =>
      have hlen : rest.length ≤ n := by simpa using hl
      by_cases hflag : a ∈ cliFlags
      · -- an option: the scan goes on behind it and its values
        obtain ⟨b, hb, hbad⟩ := h
        have hne : b ≠ a := fun e => hbad (e ▸ hflag)
        simp only [cliFlags, List.mem_cons, List.mem_singleton, List.not_mem_nil,
          or_false] at hflag
        have step : ∀ (t : List String) (args2 : CLIArgs), t.length ≤ n →
            reachedArgs (a :: rest) = a :: reachedArgs t →
            parseLoop (a :: rest) args = parseLoop t args2 →
            ∃ b, b ∈ reachedArgs (a :: rest) ∧ b ∉ cliFlags ∧
              parseLoop (a :: rest) args = .exit 1 (usageMessage b) := by
          intro t args2 ht hreach hparse
          rw [hreach] at hb
          have hbt : b ∈ reachedArgs t := by
            rcases List.mem_cons.mp hb with e | e
            · exact absurd e hne
            · exact e
          obtain ⟨b2, hb2, hbad2, hp2⟩ := ih t args2 ht ⟨b, hbt, hbad⟩
          exact ⟨b2, by rw [hreach]; exact List.mem_cons_of_mem _ hb2, hbad2, by rw [hparse, hp2]⟩
        have htail : rest.tail.length ≤ n := by
          have := List.length_tail rest; omega
        have hdrop : (rest.dropWhile (fun s => !beginsWithDash s)).length ≤ n :=
          le_trans (List.dropWhile_sublist _).length_le hlen
        by_cases hr : rest = []
        · -- the last argument: nothing is reached behind it
          subst hr
          rw [reachedArgs] at hb
          have : reachedArgs [] = [] := by rw [reachedArgs]
          simp [this] at hb
          exact absurd hb hne
        rcases hflag with rfl | rfl | rfl | rfl | rfl
        · exact step rest.tail { args with input := rest.headD "" } htail
            (by rw [reachedArgs]; simp [hr]) (by rw [parseLoop]; simp [hr])
        · exact step rest.tail { args with outputDir := rest.headD "" } htail
            (by rw [reachedArgs]; simp [hr]) (by rw [parseLoop]; simp [hr])
        · exact step _ _ hdrop (by rw [reachedArgs]; simp) (parseLoop_schemes_step rest args)
        · exact step rest { args with noBlind := true } hlen
            (by rw [reachedArgs]; simp) (by rw [parseLoop]; simp)
        · exact step rest { args with cutflowOnly := true } hlen
            (by rw [reachedArgs]; simp) (by rw [parseLoop]; simp)
      · exact ⟨a, head_mem_reachedArgs a rest, hflag, parseLoop_unknown a rest args hflag⟩

/-! ### Auxiliary facts on `main` -/

theorem isSentinel_eq_true_iff (v s : ℚ) :
    isSentinel v s = true ↔ s - 1 / 10 < v ∧ v < s + 1 / 10 := by
  simp only [isSentinel, decide_eq_true_eq, abs_lt]
  constructor <;> rintro ⟨h1, h2⟩ <;> constructor <;> linarith

theorem isSentinel_eq_false_iff (v s : ℚ) :
    isSentinel v s = false ↔ v ≤ s - 1 / 10 ∨ s + 1 / 10 ≤ v := by
  rw [← Bool.not_eq_true, isSentinel_eq_true_iff, not_and_or, not_lt, not_lt]

theorem isSentinel_self (s : ℚ) : isSentinel s s = true := by
  rw [isSentinel_eq_true_iff]; constructor <;> linarith

theorem lt_of_isSentinel {v : ℚ} (h : isSentinel v (-999) = true) : v < -9989 / 10 := by
  rw [isSentinel_eq_true_iff] at h; linarith [h.2]

theorem passPreselection_eq_and (self : EventSelector) (evt : EventData)
    (sd : SchemeData) (key : String) :
    self.passPreselection evt sd key =
      (self.passSchemeFlag evt key && self.passDiphotonMass evt &&
        self.passPhotonPt evt && self.passPhotonMvaId evt &&
        self.passDijetMass sd && self.passBjetPt sd) := by
  unfold passPreselection
  cases self.passSchemeFlag evt key <;> cases self.passDiphotonMass evt <;>
    cases self.passPhotonPt evt <;> cases self.passPhotonMvaId evt <;>
    cases self.passDijetMass sd <;> cases self.passBjetPt sd <;> rfl

theorem passDijetMass_of_sentinel (self : EventSelector) (sd : SchemeData)
    (h : isSentinel sd.dijet_mass (-999) = true) : self.passDijetMass sd = false := by
  simp [passDijetMass, h]

theorem passBjetPt_of_sentinel (self : EventSelector) (sd : SchemeData)
    (h : isSentinel sd.lead_bjet_pt (-999) = true ∨ isSentinel sd.sublead_bjet_pt (-999) = true) :
    self.passBjetPt sd = false := by
  unfold passBjetPt
  rcases h with h | h
  · simp [h]
  · simp [h]

theorem passPhotonPt_of_mass_nonpos (self : EventSelector) (evt : EventData)
    (h : evt.mass ≤ 0) : self.passPhotonPt evt = false := by
  simp [passPhotonPt, h]


/-- A finite `double` is a dyadic rational: it is no tenth `a / 10` with `a` prime to 5. -/
theorem IsDouble.ne_tenth (q : ℚ) (h : IsDouble q) (a : Int) (ha : ¬ (5 : Int) ∣ a) :
    q ≠ (a : ℚ) / 10 := by
  obtain ⟨m, e, _, _, _, rfl⟩ := h
  intro heq
  have p5 : Prime (5 : Int) := Int.prime_iff_natAbs_prime.mpr (by norm_num)
  obtain ⟨n, rfl | rfl⟩ := Int.eq_nat_or_neg e
  · rw [zpow_natCast] at heq
    have h2 : (10 : ℚ) * ((m : ℚ) * 2 ^ n) = a := by rw [heq]; ring
    have h3 : (10 : Int) * (m * 2 ^ n) = a := by exact_mod_cast h2
    exact ha ⟨2 * (m * 2 ^ n), by rw [← h3]; ring⟩
  · rw [zpow_neg, zpow_natCast] at heq
    have h2 : (10 : ℚ) * (m : ℚ) = a * 2 ^ n := by
      field_simp at heq
      linarith
    have h3 : (10 : Int) * m = a * 2 ^ n := by exact_mod_cast h2
    have h5 : (5 : Int) ∣ a * 2 ^ n := ⟨2 * m, by rw [← h3]; ring⟩
    rcases p5.dvd_or_dvd h5 with h | h
    · exact ha h
    · have := p5.dvd_of_dvd_pow h
      norm_num at this

/-- No `double` lies at distance exactly 0.1 from -999: for a `double`, distance at
most 0.1 is distance below 0.1, which is what `isSentinel` tests. -/
theorem isSentinel_of_double (x : ℚ) (hx : IsDouble x) (h : abs (x - (-999)) ≤ 1 / 10) :
    isSentinel x (-999) = true := by
  rw [isSentinel_eq_true_iff]
  rw [abs_le] at h
  have h1 : x ≠ ((-9991 : Int) : ℚ) / 10 := IsDouble.ne_tenth x hx (-9991) (by norm_num)
  have h2 : x ≠ ((-9989 : Int) : ℚ) / 10 := IsDouble.ne_tenth x hx (-9989) (by norm_num)
  push_cast at h1 h2
  constructor
  · rcases lt_or_eq_of_le h.1 with h3 | h3
    · linarith
    · exact absurd (by linarith) h1
  · rcases lt_or_eq_of_le h.2 with h3 | h3
    · linarith
    · exact absurd (by linarith) h2

theorem isDouble_sentinel : IsDouble (-999) :=
  ⟨-999, 0, by norm_num, by norm_num, by norm_num, by norm_num⟩

/-! ### Auxiliary facts on the default cuts -/

theorem passSchemeFlag_of_categoryFlag (self : EventSelector) (evt : EventData)
    (key : String) (f : ℚ) (h : categoryFlag evt key = some f) :
    self.passSchemeFlag evt key = decide (f > 1 / 2) := by
  unfold categoryFlag at h
  unfold passSchemeFlag
  by_cases h1 : key = "nonRes"
  · subst h1; simp [List.lookup] at h; simp [h]
  by_cases h2 : key = "nonResReg"
  · subst h2; simp [List.lookup] at h; simp [h]
  by_cases h3 : key = "nonResReg_DNNpair"
  · subst h3; simp [List.lookup] at h; simp [h]
  by_cases h4 : key = "nonResReg_vbfpair"
  · subst h4; simp [List.lookup] at h; simp [h]
  by_cases h5 : key = "Res"
  · subst h5; simp [List.lookup] at h; simp [h]
  by_cases h6 : key = "Res_DNNpair"
  · subst h6; simp [List.lookup] at h; simp [h]
  have b1 : (key == "nonRes") = false := by simpa using h1
  have b2 : (key == "nonResReg") = false := by simpa using h2
  have b3 : (key == "nonResReg_DNNpair") = false := by simpa using h3
  have b4 : (key == "nonResReg_vbfpair") = false := by simpa using h4
  have b5 : (key == "Res") = false := by simpa using h5
  have b6 : (key == "Res_DNNpair") = false := by simpa using h6
  simp [List.lookup, b1, b2, b3, b4, b5, b6] at h

theorem passPhotonPt_default_of_sentinel (m : Int) (evt : EventData)
    (h : isSentinel evt.lead_pt (-999) = true ∨ isSentinel evt.sublead_pt (-999) = true) :
    EventSelector.passPhotonPt ⟨{ nBLooseMin := m }⟩ evt = false := by
  unfold passPhotonPt
  by_cases hm : evt.mass ≤ 0
  · rw [if_pos hm]
  · have hpos : 0 < evt.mass := not_le.mp hm
    rw [if_neg hm, Bool.and_eq_false_iff, decide_eq_false_iff_not, decide_eq_false_iff_not]
    rcases h with h | h
    · have hneg : evt.lead_pt / evt.mass < 0 :=
        div_neg_of_neg_of_pos (by linarith [lt_of_isSentinel h]) hpos
      left
      show ¬ (evt.lead_pt / evt.mass > (1 : ℚ) / 3)
      intro hgt
      linarith
    · have hneg : evt.sublead_pt / evt.mass < 0 :=
        div_neg_of_neg_of_pos (by linarith [lt_of_isSentinel h]) hpos
      right
      show ¬ (evt.sublead_pt / evt.mass > (1 : ℚ) / 4)
      intro hgt
      linarith

theorem passPhotonMvaId_default_of_sentinel (m : Int) (evt : EventData)
    (h : isSentinel evt.lead_mvaID (-999) = true ∨ isSentinel evt.sublead_mvaID (-999) = true) :
    EventSelector.passPhotonMvaId ⟨{ nBLooseMin := m }⟩ evt = false := by
  unfold passPhotonMvaId
  rw [Bool.and_eq_false_iff, decide_eq_false_iff_not, decide_eq_false_iff_not]
  rcases h with h | h
  · left
    show ¬ (evt.lead_mvaID > (-7 : ℚ) / 10)
    intro hgt
    linarith [lt_of_isSentinel h]
  · right
    show ¬ (evt.sublead_mvaID > (-7 : ℚ) / 10)
    intro hgt
    linarith [lt_of_isSentinel h]

theorem passDiphotonMass_default_of_sentinel (m : Int) (evt : EventData)
    (h : isSentinel evt.mass (-999) = true) :
    EventSelector.passDiphotonMass ⟨{ nBLooseMin := m }⟩ evt = false := by
  unfold passDiphotonMass
  rw [Bool.and_eq_false_iff, decide_eq_false_iff_not, decide_eq_false_iff_not]
  left
  show ¬ (evt.mass ≥ (100 : ℚ))
  intro hge
  linarith [lt_of_isSentinel h]

/-! ### Auxiliary facts relating the cutflow and the preselection -/

theorem passesFirst_six (self : EventSelector) (key : String) (evt : EventData)
    (sd : SchemeData) :
    passesFirst self key 6 evt sd = self.passPreselection evt sd key := by
  rw [passPreselection_eq_and]
  simp [passesFirst, cutSequence, Bool.and_assoc]

theorem survivors_six (self : EventSelector) (loader : DataLoader) (key : String) :
    survivors self loader key 6 =
      loader.tree.countP (fun e => self.passPreselection e.evt (e.scheme key) key) := by
  unfold survivors
  simp only [passesFirst_six]

/-- For fewer than `2^31` entries the last count of the table is the number of
entries that pass the preselection. -/
theorem cutflow_last_small (self : EventSelector) (loader : DataLoader) (key : String)
    (hkey : findScheme key ≠ none) (hN : loader.getEntries < 2147483648) :
    ((printCutflow self loader key).rows.map CutflowRow.count).getLast? =
      some ((loader.tree.countP
        (fun e => self.passPreselection e.evt (e.scheme key) key) : Nat) : Int) := by
  rw [(printCutflow_of_registered self loader key hkey).1, cutflowTable_counts,
    cutflowLoop_small self loader key hN, ← survivors_six]
  simp

theorem survivors_replicate (self : EventSelector) (key : String) (n k : Nat)
    (e : TreeEntry) :
    survivors self ⟨List.replicate n e⟩ key k =
      if passesFirst self key k e.evt (e.scheme key) = true then n else 0 := by
  unfold survivors
  rw [List.countP_replicate]

theorem passesFirst_of_succ (self : EventSelector) (key : String) (k : Nat)
    (evt : EventData) (sd : SchemeData) (h : passesFirst self key (k + 1) evt sd = true) :
    passesFirst self key k evt sd = true := by
  simp only [passesFirst, List.all_eq_true] at h ⊢
  intro cut hcut
  exact h cut (List.take_subset_take_left (cutSequence self key) (Nat.le_succ k) hcut)

theorem passingEntry_passes :
    EventSelector.passPreselection {} passingEntry.evt (passingEntry.scheme "nonRes") "nonRes"
      = true := by
  simp [passPreselection_eq_and, passSchemeFlag, passDiphotonMass, passPhotonPt,
    passPhotonMvaId, passDijetMass, passBjetPt, isSentinel_eq_true_iff, passingEntry,
    goodScheme]
  norm_num

theorem passingEntry_passesFirst (k : Nat) (hk : k ≤ 6) :
    passesFirst {} "nonRes" k passingEntry.evt (passingEntry.scheme "nonRes") = true := by
  have h6 : passesFirst {} "nonRes" 6 passingEntry.evt (passingEntry.scheme "nonRes") = true := by
    rw [passesFirst_six]; exact passingEntry_passes
  have h5 := passesFirst_of_succ _ _ 5 _ _ h6
  have h4 := passesFirst_of_succ _ _ 4 _ _ h5
  have h3 := passesFirst_of_succ _ _ 3 _ _ h4
  have h2 := passesFirst_of_succ _ _ 2 _ _ h3
  have h1 := passesFirst_of_succ _ _ 1 _ _ h2
  have h0 := passesFirst_of_succ _ _ 0 _ _ h1
  interval_cases k <;> assumption

/-! ### Auxiliary facts on loosened cuts -/

/-- The cuts `c2` are at least as loose as `c`, threshold by threshold. -/
theorem passPreselection_loosen (c c2 : SelectionCuts) (evt : EventData) (sd : SchemeData)
    (key : String)
    (h1 : c2.mggMin ≤ c.mggMin) (h2 : c2.mggMax ≥ c.mggMax)
    (h3 : c2.leadPtOverMgg ≤ c.leadPtOverMgg) (h4 : c2.subleadPtOverMgg ≤ c.subleadPtOverMgg)
    (h5 : c2.mvaIdMin ≤ c.mvaIdMin) (h6 : c2.mjjMin ≤ c.mjjMin) (h7 : c2.mjjMax ≥ c.mjjMax)
    (h8 : c2.bjetPtMin ≤ c.bjetPtMin) :
    (EventSelector.passSchemeFlag ⟨c⟩ evt key = true →
        EventSelector.passSchemeFlag ⟨c2⟩ evt key = true) ∧
      (EventSelector.passDiphotonMass ⟨c⟩ evt = true →
        EventSelector.passDiphotonMass ⟨c2⟩ evt = true) ∧
      (EventSelector.passPhotonPt ⟨c⟩ evt = true →
        EventSelector.passPhotonPt ⟨c2⟩ evt = true) ∧
      (EventSelector.passPhotonMvaId ⟨c⟩ evt = true →
        EventSelector.passPhotonMvaId ⟨c2⟩ evt = true) ∧
      (EventSelector.passDijetMass ⟨c⟩ sd = true →
        EventSelector.passDijetMass ⟨c2⟩ sd = true) ∧
      (EventSelector.passBjetPt ⟨c⟩ sd = true → EventSelector.passBjetPt ⟨c2⟩ sd = true) := by
  refine ⟨fun h => h, ?_, ?_, ?_, ?_, ?_⟩
  · simp only [passDiphotonMass, Bool.and_eq_true, decide_eq_true_eq, ge_iff_le]
    rintro ⟨a, b⟩
    exact ⟨le_trans h1 a, le_trans b h2⟩
  · unfold passPhotonPt
    by_cases hm : evt.mass ≤ 0
    · simp [hm]
    · simp only [if_neg hm, Bool.and_eq_true, decide_eq_true_eq, gt_iff_lt]
      rintro ⟨a, b⟩
      exact ⟨lt_of_le_of_lt h3 a, lt_of_le_of_lt h4 b⟩
  · simp only [passPhotonMvaId, Bool.and_eq_true, decide_eq_true_eq, gt_iff_lt]
    rintro ⟨a, b⟩
    exact ⟨lt_of_le_of_lt h5 a, lt_of_le_of_lt h5 b⟩
  · unfold passDijetMass
    cases isSentinel sd.dijet_mass (-999)
    · simp only [Bool.false_eq_true, if_false, Bool.and_eq_true, decide_eq_true_eq, ge_iff_le]
      rintro ⟨a, b⟩
      exact ⟨le_trans h6 a, le_trans b h7⟩
    · simp
  · unfold passBjetPt
    cases isSentinel sd.lead_bjet_pt (-999) <;> cases isSentinel sd.sublead_bjet_pt (-999)
    · simp only [Bool.false_eq_true, if_false, Bool.and_eq_true, decide_eq_true_eq, gt_iff_lt]
      rintro ⟨a, b⟩
      exact ⟨lt_of_le_of_lt h8 a, lt_of_le_of_lt h8 b⟩
    all_goals simp

theorem passesFirst_loosen (c c2 : SelectionCuts) (evt : EventData) (sd : SchemeData)
    (key : String) (k : Nat)
    (h1 : c2.mggMin ≤ c.mggMin) (h2 : c2.mggMax ≥ c.mggMax)
    (h3 : c2.leadPtOverMgg ≤ c.leadPtOverMgg) (h4 : c2.subleadPtOverMgg ≤ c.subleadPtOverMgg)
    (h5 : c2.mvaIdMin ≤ c.mvaIdMin) (h6 : c2.mjjMin ≤ c.mjjMin) (h7 : c2.mjjMax ≥ c.mjjMax)
    (h8 : c2.bjetPtMin ≤ c.bjetPtMin)
    (h : passesFirst ⟨c⟩ key k evt sd = true) : passesFirst ⟨c2⟩ key k evt sd = true := by
  obtain ⟨m1, m2, m3, m4, m5, m6⟩ :=
    passPreselection_loosen c c2 evt sd key h1 h2 h3 h4 h5 h6 h7 h8
  have hrel : List.Forall₂
      (fun f g : EventData → SchemeData → Bool => f evt sd = true → g evt sd = true)
      (cutSequence ⟨c⟩ key) (cutSequence ⟨c2⟩ key) := by
    unfold cutSequence
    exact .cons m1 (.cons m2 (.cons m3 (.cons m4 (.cons m5 (.cons m6 .nil)))))
  have hall : ∀ (l1 l2 : List (EventData → SchemeData → Bool)),
      List.Forall₂
        (fun f g : EventData → SchemeData → Bool => f evt sd = true → g evt sd = true) l1 l2 →
      l1.all (fun cut => cut evt sd) = true → l2.all (fun cut => cut evt sd) = true := by
    intro l1 l2 h12
    induction h12 with
    | nil => intro _; rfl
    | cons hfg _ ih =>
      simp only [List.all_cons, Bool.and_eq_true]
      rintro ⟨ha, hb⟩
      exact ⟨hfg ha, ih hb⟩
  exact hall _ _ (List.forall₂_take k hrel) h

/-- Loosening the cuts never rejects an accepted event. -/
theorem passPreselection_mono (c c2 : SelectionCuts) (evt : EventData) (sd : SchemeData)
    (key : String)
    (h1 : c2.mggMin ≤ c.mggMin) (h2 : c2.mggMax ≥ c.mggMax)
    (h3 : c2.leadPtOverMgg ≤ c.leadPtOverMgg) (h4 : c2.subleadPtOverMgg ≤ c.subleadPtOverMgg)
    (h5 : c2.mvaIdMin ≤ c.mvaIdMin) (h6 : c2.mjjMin ≤ c.mjjMin) (h7 : c2.mjjMax ≥ c.mjjMax)
    (h8 : c2.bjetPtMin ≤ c.bjetPtMin)
    (h : EventSelector.passPreselection ⟨c⟩ evt sd key = true) :
    EventSelector.passPreselection ⟨c2⟩ evt sd key = true := by
  rw [← passesFirst_six] at h ⊢
  exact passesFirst_loosen c c2 evt sd key 6 h1 h2 h3 h4 h5 h6 h7 h8 h

/-- For fewer than `2^31` entries every count under the looser cuts is at least the
count under the stricter ones. -/
theorem cutflowLoop_loosen_small (c c2 : SelectionCuts) (loader : DataLoader) (key : String)
    (hN : loader.getEntries < 2147483648)
    (h1 : c2.mggMin ≤ c.mggMin) (h2 : c2.mggMax ≥ c.mggMax)
    (h3 : c2.leadPtOverMgg ≤ c.leadPtOverMgg) (h4 : c2.subleadPtOverMgg ≤ c.subleadPtOverMgg)
    (h5 : c2.mvaIdMin ≤ c.mvaIdMin) (h6 : c2.mjjMin ≤ c.mjjMin) (h7 : c2.mjjMax ≥ c.mjjMax)
    (h8 : c2.bjetPtMin ≤ c.bjetPtMin) :
    List.Forall₂ (fun a b : Int => a ≤ b) (cutflowLoop ⟨c⟩ loader key)
      (cutflowLoop ⟨c2⟩ loader key) := by
  have hs : ∀ k, survivors ⟨c⟩ loader key k ≤ survivors ⟨c2⟩ loader key k := by
    intro k
    unfold survivors
    apply List.countP_mono_left
    intro e _ he
    exact passesFirst_loosen c c2 e.evt (e.scheme key) key k h1 h2 h3 h4 h5 h6 h7 h8 he
  rw [cutflowLoop_small ⟨c⟩ loader key hN, cutflowLoop_small ⟨c2⟩ loader key hN]
  simp only [List.forall₂_cons, List.Forall₂.nil, and_true, Nat.cast_le]
  exact ⟨le_refl _, hs 1, hs 2, hs 3, hs 4, hs 5, hs 6⟩

theorem passesFirst_succ_false (self : EventSelector) (key : String) (k : Nat)
    (evt : EventData) (sd : SchemeData) (h : passesFirst self key k evt sd = false) :
    passesFirst self key (k + 1) evt sd = false := by
  cases h2 : passesFirst self key (k + 1) evt sd with
  | false => rfl
  | true => rw [passesFirst_of_succ self key k evt sd h2] at h; cases h

/-- The entries of mass 185 under the default cuts: the flag passes, the mass window
does not. -/
theorem mass185_default (n : Nat) :
    cutflowLoop {} ⟨List.replicate n mass185Entry⟩ "nonRes" =
      [wrapInt32 n, wrapInt32 n, wrapInt32 (0 : Nat), wrapInt32 (0 : Nat), wrapInt32 (0 : Nat),
        wrapInt32 (0 : Nat), wrapInt32 (0 : Nat)] := by
  have p0 : passesFirst {} "nonRes" 0 mass185Entry.evt (mass185Entry.scheme "nonRes") = true := rfl
  have p1 : passesFirst {} "nonRes" 1 mass185Entry.evt (mass185Entry.scheme "nonRes") = true := by
    simp [passesFirst, cutSequence, passSchemeFlag, mass185Entry]
    norm_num
  have p2 : passesFirst {} "nonRes" 2 mass185Entry.evt (mass185Entry.scheme "nonRes") = false := by
    simp [passesFirst, cutSequence, passSchemeFlag, passDiphotonMass, mass185Entry]
    norm_num
  have p3 := passesFirst_succ_false _ _ 2 _ _ p2
  have p4 := passesFirst_succ_false _ _ 3 _ _ p3
  have p5 := passesFirst_succ_false _ _ 4 _ _ p4
  have p6 := passesFirst_succ_false _ _ 5 _ _ p5
  rw [cutflowLoop_eq]
  simp only [survivors_replicate, p0, p1, p2, p3, p4, p5, p6, if_true, Bool.false_eq_true,
    if_false]

/-- The entries of mass 185 under the widened window: the flag and the mass window
pass, the photon pT cut does not. -/
theorem mass185_wider (n : Nat) :
    cutflowLoop ⟨widerMassCuts⟩ ⟨List.replicate n mass185Entry⟩ "nonRes" =
      [wrapInt32 n, wrapInt32 n, wrapInt32 n, wrapInt32 (0 : Nat), wrapInt32 (0 : Nat),
        wrapInt32 (0 : Nat), wrapInt32 (0 : Nat)] := by
  have p0 : passesFirst ⟨widerMassCuts⟩ "nonRes" 0 mass185Entry.evt
      (mass185Entry.scheme "nonRes") = true := rfl
  have p1 : passesFirst ⟨widerMassCuts⟩ "nonRes" 1 mass185Entry.evt
      (mass185Entry.scheme "nonRes") = true := by
    simp [passesFirst, cutSequence, passSchemeFlag, mass185Entry]
    norm_num
  have p2 : passesFirst ⟨widerMassCuts⟩ "nonRes" 2 mass185Entry.evt
      (mass185Entry.scheme "nonRes") = true := by
    simp [passesFirst, cutSequence, passSchemeFlag, passDiphotonMass, mass185Entry,
      widerMassCuts]
    norm_num
  have p3 : passesFirst ⟨widerMassCuts⟩ "nonRes" 3 mass185Entry.evt
      (mass185Entry.scheme "nonRes") = false := by
    simp [passesFirst, cutSequence, passSchemeFlag, passDiphotonMass, passPhotonPt,
      mass185Entry, widerMassCuts]
  have p4 := passesFirst_succ_false _ _ 3 _ _ p3
  have p5 := passesFirst_succ_false _ _ 4 _ _ p4
  have p6 := passesFirst_succ_false _ _ 5 _ _ p5
  rw [cutflowLoop_eq]
  simp only [survivors_replicate, p0, p1, p2, p3, p4, p5, p6, if_true, Bool.false_eq_true,
    if_false]

/-- C1: `passPreselection` is the conjunction, in source order, of the scheme flag,
diphoton mass, photon pT, photon MVA-ID, dijet mass and b-jet pT cuts; it is `true`
iff all six are; it is `false` whenever the scheme flag fails; and the per-scheme
block of the event loop, which tests `passSchemeFlag` first, fills exactly the
events that `passPreselection` accepts. -/
theorem passPreselection_eq_conj (self : EventSelector) (evt : EventData)
    (sd : SchemeData) (key : String) :
    self.passPreselection evt sd key =
        (self.passSchemeFlag evt key && self.passDiphotonMass evt &&
          self.passPhotonPt evt && self.passPhotonMvaId evt &&
          self.passDijetMass sd && self.passBjetPt sd) ∧
      (self.passPreselection evt sd key = true ↔
        self.passSchemeFlag evt key = true ∧ self.passDiphotonMass evt = true ∧
          self.passPhotonPt evt = true ∧ self.passPhotonMvaId evt = true ∧
          self.passDijetMass sd = true ∧ self.passBjetPt sd = true) ∧
      (self.passSchemeFlag evt key = false → self.passPreselection evt sd key = false) ∧
      schemeBlockFills self evt sd key = self.passPreselection evt sd key := by
  unfold schemeBlockFills passPreselection
  cases self.passSchemeFlag evt key <;> cases self.passDiphotonMass evt <;>
    cases self.passPhotonPt evt <;> cases self.passPhotonMvaId evt <;>
    cases self.passDijetMass sd <;> cases self.passBjetPt sd <;> simp

/-- Witness for C1: an event with no category flag raised fails the scheme flag of
`nonRes`, hence the preselection, although every other cut passes. -/
theorem passPreselection_eq_conj_witness :
    EventSelector.passSchemeFlag {} { scenarioEvent with is_nonRes := 0 } "nonRes" = false ∧
      EventSelector.passPreselection {} { scenarioEvent with is_nonRes := 0 } goodScheme
        "nonRes" = false :=
  have h : EventSelector.passSchemeFlag {} { scenarioEvent with is_nonRes := 0 } "nonRes"
      = false := by simp [passSchemeFlag]
  ⟨h, (passPreselection_eq_conj {} { scenarioEvent with is_nonRes := 0 } goodScheme
    "nonRes").2.2.1 h⟩

/-- C2: `passSchemeFlag evt key` is `true` iff `key` is one of the six scheme keys and
the event flag of that name is strictly above one half; every other key gives
`false` for every event (the function is total, so it never fails), `"foo"` among
them. -/
theorem passSchemeFlag_iff (self : EventSelector) (evt : EventData) (key : String) :
    (self.passSchemeFlag evt key = true ↔
        (key = "nonRes" ∧ evt.is_nonRes > 1 / 2) ∨
        (key = "nonResReg" ∧ evt.is_nonResReg > 1 / 2) ∨
        (key = "nonResReg_DNNpair" ∧ evt.is_nonResReg_DNNpair > 1 / 2) ∨
        (key = "nonResReg_vbfpair" ∧ evt.is_nonResReg_vbfpair > 1 / 2) ∨
        (key = "Res" ∧ evt.is_Res > 1 / 2) ∨
        (key = "Res_DNNpair" ∧ evt.is_Res_DNNpair > 1 / 2)) ∧
      (key ∉ schemeFlagKeys → self.passSchemeFlag evt key = false) ∧
      self.passSchemeFlag evt "foo" = false := by
  refine ⟨?_, ?_, ?_⟩
  · unfold passSchemeFlag
    by_cases h1 : key = "nonRes"
    · subst h1; simp
    by_cases h2 : key = "nonResReg"
    · subst h2; simp
    by_cases h3 : key = "nonResReg_DNNpair"
    · subst h3; simp
    by_cases h4 : key = "nonResReg_vbfpair"
    · subst h4; simp
    by_cases h5 : key = "Res"
    · subst h5; simp
    by_cases h6 : key = "Res_DNNpair"
    · subst h6; simp
    simp [h1, h2, h3, h4, h5, h6]
  · intro h
    simp only [schemeFlagKeys, List.mem_cons, List.mem_singleton, List.not_mem_nil, or_false,
      not_or] at h
    obtain ⟨h1, h2, h3, h4, h5, h6⟩ := h
    simp [passSchemeFlag, h1, h2, h3, h4, h5, h6]
  · simp [passSchemeFlag]

/-- Witness for C2: at the key `"foo"`, outside the six scheme keys, an event with
every flag raised is still rejected. -/
theorem passSchemeFlag_iff_witness :
    "foo" ∉ schemeFlagKeys ∧
      EventSelector.passSchemeFlag {}
        { is_nonRes := 1, is_nonResReg := 1, is_nonResReg_DNNpair := 1,
          is_nonResReg_vbfpair := 1, is_Res := 1, is_Res_DNNpair := 1 } "foo" = false :=
  ⟨by decide, (passSchemeFlag_iff _ _ _).2.1 (by decide)⟩


/-- Counterexample to C3: with thresholds below the sentinel band, an event whose
lead and sublead photon pT and MVA-ID all hold the sentinel -999 passes
`passPhotonPt`, `passPhotonMvaId` and the whole preselection; and a sentinel
diphoton mass passes `passDiphotonMass` once `mggMin` is -1000. -/
theorem sentinel_photon_fields_pass :
    isSentinel sentinelPhotonEvent.lead_pt (-999) = true ∧
      isSentinel sentinelPhotonEvent.sublead_pt (-999) = true ∧
      isSentinel sentinelPhotonEvent.lead_mvaID (-999) = true ∧
      isSentinel sentinelPhotonEvent.sublead_mvaID (-999) = true ∧
      EventSelector.passPhotonPt ⟨lowPhotonCuts⟩ sentinelPhotonEvent = true ∧
      EventSelector.passPhotonMvaId ⟨lowPhotonCuts⟩ sentinelPhotonEvent = true ∧
      EventSelector.passPreselection ⟨lowPhotonCuts⟩ sentinelPhotonEvent goodScheme "nonRes"
        = true ∧
      isSentinel allSentinelEvent.mass (-999) = true ∧
      EventSelector.passDiphotonMass ⟨{ mggMin := -1000 }⟩ allSentinelEvent = true := by
  refine ⟨?_, ?_, ?_, ?_, ?_, ?_, ?_, ?_, ?_⟩ <;>
    simp [isSentinel_eq_true_iff, passPreselection, passSchemeFlag, passDiphotonMass,
      passPhotonPt, passPhotonMvaId, passDijetMass, passBjetPt, isSentinel_eq_false_iff,
      sentinelPhotonEvent, allSentinelEvent, goodScheme, lowPhotonCuts] <;>
    norm_num

/-- C3 (amended): a sentinel in a scheme-record field (`dijet_mass`, `lead_bjet_pt`,
`sublead_bjet_pt`) fails the cut that reads it and the preselection, whatever the
thresholds; a sentinel `mass` fails `passPhotonPt` and the preselection, whatever
the thresholds; a sentinel photon pT fails `passPhotonPt` and the preselection
when its pT/mass threshold is non-negative; a sentinel photon MVA-ID fails
`passPhotonMvaId` and the preselection when `mvaIdMin` is at least -998.9. -/
theorem sentinel_fails_preselection (self : EventSelector) (evt : EventData)
    (sd : SchemeData) (key : String) :
    (isSentinel sd.dijet_mass (-999) = true →
        self.passDijetMass sd = false ∧ self.passPreselection evt sd key = false) ∧
      (isSentinel sd.lead_bjet_pt (-999) = true ∨ isSentinel sd.sublead_bjet_pt (-999) = true →
        self.passBjetPt sd = false ∧ self.passPreselection evt sd key = false) ∧
      (isSentinel evt.mass (-999) = true →
        self.passPhotonPt evt = false ∧ self.passPreselection evt sd key = false) ∧
      (0 ≤ self.cuts_.leadPtOverMgg → isSentinel evt.lead_pt (-999) = true →
        self.passPhotonPt evt = false ∧ self.passPreselection evt sd key = false) ∧
      (0 ≤ self.cuts_.subleadPtOverMgg → isSentinel evt.sublead_pt (-999) = true →
        self.passPhotonPt evt = false ∧ self.passPreselection evt sd key = false) ∧
      (-9989 / 10 ≤ self.cuts_.mvaIdMin →
        isSentinel evt.lead_mvaID (-999) = true ∨ isSentinel evt.sublead_mvaID (-999) = true →
        self.passPhotonMvaId evt = false ∧ self.passPreselection evt sd key = false) := by
  have hpt : ∀ (a t : ℚ), 0 ≤ t → isSentinel a (-999) = true → 0 < evt.mass →
      ¬ (t < a / evt.mass) := by
    intro a t ht ha hm hlt
    have ha0 : a < 0 := by linarith [lt_of_isSentinel ha]
    have : a / evt.mass < 0 := div_neg_of_neg_of_pos ha0 hm
    linarith
  refine ⟨?_, ?_, ?_, ?_, ?_, ?_⟩
  · intro h
    have h1 := passDijetMass_of_sentinel self sd h
    exact ⟨h1, by simp [passPreselection_eq_and, h1]⟩
  · intro h
    have h1 := passBjetPt_of_sentinel self sd h
    exact ⟨h1, by simp [passPreselection_eq_and, h1]⟩
  · intro h
    have h1 := passPhotonPt_of_mass_nonpos self evt (by linarith [lt_of_isSentinel h])
    exact ⟨h1, by simp [passPreselection_eq_and, h1]⟩
  · intro ht h
    have h1 : self.passPhotonPt evt = false := by
      unfold passPhotonPt
      by_cases hm : evt.mass ≤ 0
      · simp [hm]
      · have := hpt _ _ ht h (not_le.mp hm)
        simp [hm, this]
    exact ⟨h1, by simp [passPreselection_eq_and, h1]⟩
  · intro ht h
    have h1 : self.passPhotonPt evt = false := by
      unfold passPhotonPt
      by_cases hm : evt.mass ≤ 0
      · simp [hm]
      · have := hpt _ _ ht h (not_le.mp hm)
        simp [hm, this]
    exact ⟨h1, by simp [passPreselection_eq_and, h1]⟩
  · intro ht h
    have h1 : self.passPhotonMvaId evt = false := by
      unfold passPhotonMvaId
      rcases h with h | h
      · have := lt_of_isSentinel h
        have h2 : ¬ (self.cuts_.mvaIdMin < evt.lead_mvaID) := by linarith
        simp [h2]
      · have := lt_of_isSentinel h
        have h2 : ¬ (self.cuts_.mvaIdMin < evt.sublead_mvaID) := by linarith
        simp [h2]
    exact ⟨h1, by simp [passPreselection_eq_and, h1]⟩

/-- Witness for C3 (amended): with the default cuts, the all-sentinel event and scheme
record meet every hypothesis, and each cut and the preselection fail. -/
theorem sentinel_fails_preselection_witness :
    (isSentinel allSentinelScheme.dijet_mass (-999) = true ∧
        isSentinel allSentinelScheme.lead_bjet_pt (-999) = true ∧
        isSentinel allSentinelEvent.mass (-999) = true ∧
        isSentinel allSentinelEvent.lead_pt (-999) = true ∧
        isSentinel allSentinelEvent.sublead_pt (-999) = true ∧
        isSentinel allSentinelEvent.lead_mvaID (-999) = true ∧
        (0 : ℚ) ≤ ({} : EventSelector).cuts_.leadPtOverMgg ∧
        (0 : ℚ) ≤ ({} : EventSelector).cuts_.subleadPtOverMgg ∧
        (-9989 / 10 : ℚ) ≤ ({} : EventSelector).cuts_.mvaIdMin) ∧
      EventSelector.passDijetMass {} allSentinelScheme = false ∧
      EventSelector.passBjetPt {} allSentinelScheme = false ∧
      EventSelector.passPhotonPt {} allSentinelEvent = false ∧
      EventSelector.passPhotonMvaId {} allSentinelEvent = false ∧
      EventSelector.passPreselection {} allSentinelEvent allSentinelScheme "nonRes" = false :=
  have T := sentinel_fails_preselection {} allSentinelEvent allSentinelScheme "nonRes"
  have hs : isSentinel (-999) (-999) = true := isSentinel_self _
  have h1 : (0 : ℚ) ≤ 1 / 3 := by norm_num
  have h2 : (0 : ℚ) ≤ 1 / 4 := by norm_num
  have h3 : (-9989 / 10 : ℚ) ≤ -7 / 10 := by norm_num
  have r1 := T.1 hs
  have r2 := T.2.1 (Or.inl hs)
  have r3 := T.2.2.1 hs
  have _r4 := T.2.2.2.1 h1 hs
  have _r5 := T.2.2.2.2.1 h2 hs
  have r6 := T.2.2.2.2.2 h3 (Or.inl hs)
  ⟨⟨hs, hs, hs, hs, hs, hs, h1, h2, h3⟩, r1.1, r2.1, r3.1, r6.1, r1.2⟩

/-- C4: `passDijetMass` is `false` whenever the `double` `dijet_mass` lies at distance
at most 0.1 from -999, and `passBjetPt` is `false` whenever the `double` `lead_bjet_pt`
or `sublead_bjet_pt` does, whatever the thresholds; so -999 itself fails the window
`mjjMin = -1000`, `mjjMax = 0` that it lies in. -/
theorem sentinel_scheme_cuts_fail (self : EventSelector) (sd : SchemeData)
    (hd : IsDouble sd.dijet_mass) (hl : IsDouble sd.lead_bjet_pt)
    (hs : IsDouble sd.sublead_bjet_pt) :
    (abs (sd.dijet_mass - (-999)) ≤ 1 / 10 → self.passDijetMass sd = false) ∧
      (abs (sd.lead_bjet_pt - (-999)) ≤ 1 / 10 ∨ abs (sd.sublead_bjet_pt - (-999)) ≤ 1 / 10 →
        self.passBjetPt sd = false) := by
  constructor
  · intro h
    exact passDijetMass_of_sentinel self sd (isSentinel_of_double _ hd h)
  · intro h
    refine passBjetPt_of_sentinel self sd ?_
    rcases h with h | h
    · exact Or.inl (isSentinel_of_double _ hl h)
    · exact Or.inr (isSentinel_of_double _ hs h)

/-- Witness for C4: -999 is a `double` at distance 0 from -999; it lies inside the
window `[-1000, 0]` and above the threshold -1000, and both scheme cuts reject it. -/
theorem sentinel_scheme_cuts_fail_witness :
    IsDouble allSentinelScheme.dijet_mass ∧ IsDouble allSentinelScheme.lead_bjet_pt ∧
      IsDouble allSentinelScheme.sublead_bjet_pt ∧
      abs (allSentinelScheme.dijet_mass - (-999)) ≤ 1 / 10 ∧
      abs (allSentinelScheme.lead_bjet_pt - (-999)) ≤ 1 / 10 ∧
      (-1000 : ℚ) ≤ allSentinelScheme.dijet_mass ∧ allSentinelScheme.dijet_mass ≤ 0 ∧
      (-1000 : ℚ) < allSentinelScheme.lead_bjet_pt ∧
      EventSelector.passDijetMass ⟨{ mjjMin := -1000, mjjMax := 0, bjetPtMin := -1000 }⟩
        allSentinelScheme = false ∧
      EventSelector.passBjetPt ⟨{ mjjMin := -1000, mjjMax := 0, bjetPtMin := -1000 }⟩
        allSentinelScheme = false :=
  have h : abs ((-999 : ℚ) - (-999)) ≤ 1 / 10 := by norm_num
  have d : IsDouble (-999) := isDouble_sentinel
  ⟨d, d, d, h, h, by norm_num [allSentinelScheme], by norm_num [allSentinelScheme],
    by norm_num [allSentinelScheme],
    (sentinel_scheme_cuts_fail _ allSentinelScheme d d d).1 h,
    (sentinel_scheme_cuts_fail _ allSentinelScheme d d d).2 (Or.inl h)⟩

/-- C5: `passDijetMass sd` is `true` iff `dijet_mass` is not a sentinel and lies in the
closed window `[mjjMin, mjjMax]`; with `dijet_mass = -999` it is `false` for every
choice of the cuts. -/
theorem passDijetMass_iff (self : EventSelector) (sd : SchemeData) :
    (self.passDijetMass sd = true ↔
        isSentinel sd.dijet_mass (-999) = false ∧
          self.cuts_.mjjMin ≤ sd.dijet_mass ∧ sd.dijet_mass ≤ self.cuts_.mjjMax) ∧
      self.passDijetMass { sd with dijet_mass := -999 } = false := by
  constructor
  · unfold passDijetMass
    cases h : isSentinel sd.dijet_mass (-999) <;> simp
  · exact passDijetMass_of_sentinel _ _ (isSentinel_self _)

/-- C6: `passBjetPt sd` is `true` iff neither b-jet pT is a sentinel and both are
strictly above `bjetPtMin`; a lead or sublead b-jet pT equal to `bjetPtMin` fails. -/
theorem passBjetPt_iff (self : EventSelector) (sd : SchemeData) :
    (self.passBjetPt sd = true ↔
        isSentinel sd.lead_bjet_pt (-999) = false ∧
          isSentinel sd.sublead_bjet_pt (-999) = false ∧
          sd.lead_bjet_pt > self.cuts_.bjetPtMin ∧
          sd.sublead_bjet_pt > self.cuts_.bjetPtMin) ∧
      self.passBjetPt { sd with lead_bjet_pt := self.cuts_.bjetPtMin } = false ∧
      self.passBjetPt { sd with sublead_bjet_pt := self.cuts_.bjetPtMin } = false := by
  refine ⟨?_, ?_, ?_⟩
  · unfold passBjetPt
    cases h1 : isSentinel sd.lead_bjet_pt (-999) <;>
      cases h2 : isSentinel sd.sublead_bjet_pt (-999) <;> simp
  · unfold passBjetPt
    split_ifs <;> simp
  · unfold passBjetPt
    split_ifs <;> simp

/-- C7: `passPhotonPt evt` is `false` when `mass ≤ 0` (so the quotients by `mass` are
only compared when `mass > 0`, and `mass = 0` gives `false` whatever the pT
values); when `mass > 0` it is `true` iff `lead_pt / mass > leadPtOverMgg` and
`sublead_pt / mass > subleadPtOverMgg`, both strict.  With mass 125, pT 50 and 40
and thresholds 1/3 and 1/4 it is `true`. -/
theorem passPhotonPt_spec (self : EventSelector) (evt : EventData) :
    (evt.mass ≤ 0 → self.passPhotonPt evt = false) ∧
      (evt.mass > 0 →
        (self.passPhotonPt evt = true ↔
          evt.lead_pt / evt.mass > self.cuts_.leadPtOverMgg ∧
            evt.sublead_pt / evt.mass > self.cuts_.subleadPtOverMgg)) ∧
      self.passPhotonPt { evt with mass := 0 } = false ∧
      EventSelector.passPhotonPt ⟨{ leadPtOverMgg := 1 / 3, subleadPtOverMgg := 1 / 4 }⟩
        scenarioEvent = true := by
  refine ⟨passPhotonPt_of_mass_nonpos self evt, ?_, ?_, ?_⟩
  · intro h
    simp [passPhotonPt, not_le.mpr h]
  · simp [passPhotonPt]
  · simp [passPhotonPt, scenarioEvent]; norm_num

/-- Witness for C7: the scenario event has positive mass and both ratios above the
thresholds, so it passes; the same event with mass 0 fails. -/
theorem passPhotonPt_spec_witness :
    scenarioEvent.mass > 0 ∧
      scenarioEvent.lead_pt / scenarioEvent.mass > ({} : EventSelector).cuts_.leadPtOverMgg ∧
      scenarioEvent.sublead_pt / scenarioEvent.mass >
        ({} : EventSelector).cuts_.subleadPtOverMgg ∧
      EventSelector.passPhotonPt {} scenarioEvent = true ∧
      ({ scenarioEvent with mass := 0 } : EventData).mass ≤ 0 ∧
      EventSelector.passPhotonPt {} { scenarioEvent with mass := 0 } = false :=
  have h0 : scenarioEvent.mass > 0 := by norm_num [scenarioEvent]
  have h1 : scenarioEvent.lead_pt / scenarioEvent.mass >
      ({} : EventSelector).cuts_.leadPtOverMgg := by norm_num [scenarioEvent]
  have h2 : scenarioEvent.sublead_pt / scenarioEvent.mass >
      ({} : EventSelector).cuts_.subleadPtOverMgg := by norm_num [scenarioEvent]
  have h3 : ({ scenarioEvent with mass := 0 } : EventData).mass ≤ 0 := le_refl _
  ⟨h0, h1, h2, ((passPhotonPt_spec {} scenarioEvent).2.1 h0).2 ⟨h1, h2⟩, h3,
    (passPhotonPt_spec {} { scenarioEvent with mass := 0 }).1 h3⟩

/-- C8: `passDiphotonMass evt` is `true` iff `mggMin ≤ mass ≤ mggMax`; both endpoints
of a non-empty window pass; mass 125 passes the window `[100, 180]`. -/
theorem passDiphotonMass_iff (self : EventSelector) (evt : EventData) :
    (self.passDiphotonMass evt = true ↔
        self.cuts_.mggMin ≤ evt.mass ∧ evt.mass ≤ self.cuts_.mggMax) ∧
      (self.cuts_.mggMin ≤ self.cuts_.mggMax →
        self.passDiphotonMass { evt with mass := self.cuts_.mggMin } = true ∧
          self.passDiphotonMass { evt with mass := self.cuts_.mggMax } = true) ∧
      EventSelector.passDiphotonMass ⟨{ mggMin := 100, mggMax := 180 }⟩ scenarioEvent = true := by
  refine ⟨?_, ?_, ?_⟩
  · simp [passDiphotonMass]
  · intro h
    simp [passDiphotonMass, h]
  · simp [passDiphotonMass, scenarioEvent]; norm_num

/-- Witness for C8: with the default window `[100, 180]`, mass 100 and mass 180 pass. -/
theorem passDiphotonMass_iff_witness :
    ({} : EventSelector).cuts_.mggMin ≤ ({} : EventSelector).cuts_.mggMax ∧
      EventSelector.passDiphotonMass {} { scenarioEvent with mass := 100 } = true ∧
      EventSelector.passDiphotonMass {} { scenarioEvent with mass := 180 } = true :=
  have h : ({} : EventSelector).cuts_.mggMin ≤ ({} : EventSelector).cuts_.mggMax := by
    norm_num
  ⟨h, ((passDiphotonMass_iff {} scenarioEvent).2.1 h).1,
    ((passDiphotonMass_iff {} scenarioEvent).2.1 h).2⟩

/-- C9: `passPhotonMvaId evt` is `true` iff both photon MVA-ID scores are strictly
above `mvaIdMin`; a lead or sublead score equal to `mvaIdMin` fails. -/
theorem passPhotonMvaId_iff (self : EventSelector) (evt : EventData) :
    (self.passPhotonMvaId evt = true ↔
        evt.lead_mvaID > self.cuts_.mvaIdMin ∧ evt.sublead_mvaID > self.cuts_.mvaIdMin) ∧
      self.passPhotonMvaId { evt with lead_mvaID := self.cuts_.mvaIdMin } = false ∧
      self.passPhotonMvaId { evt with sublead_mvaID := self.cuts_.mvaIdMin } = false := by
  refine ⟨?_, ?_, ?_⟩ <;> simp [passPhotonMvaId]

/-- Counterexample to C10: for an event whose `mass` is NaN both `passSignalRegion`
and `passSideband` are `false`, so it is not the case that exactly one is `true`. -/
theorem signalRegion_sideband_nan :
    EventSelector.passSignalRegion {} ⟨.nan⟩ = false ∧
      EventSelector.passSideband {} ⟨.nan⟩ = false ∧
      ¬ ((EventSelector.passSignalRegion {} ⟨.nan⟩ = true ∧
            EventSelector.passSideband {} ⟨.nan⟩ = false) ∨
          (EventSelector.passSignalRegion {} ⟨.nan⟩ = false ∧
            EventSelector.passSideband {} ⟨.nan⟩ = true)) := by
  have h1 : EventSelector.passSignalRegion {} ⟨.nan⟩ = false := rfl
  have h2 : EventSelector.passSideband {} ⟨.nan⟩ = false := rfl
  refine ⟨h1, h2, ?_⟩
  rw [h1, h2]
  simp

/-- C10 (amended): for every event whose `mass` is not NaN, exactly one of
`passSignalRegion evt` and `passSideband evt` is `true`, and for a NaN `mass` both are
`false`; `passSignalRegion` is `true` iff `115 <= mass` and `mass <= 135`,
`passSideband` iff `mass < 115` or `mass > 135`, in the comparisons of `double`, which
for a finite `mass` are those of its value; neither depends on the cuts of the
selector. -/
theorem signalRegion_xor_sideband (self other : EventSelector) (evt : EventDataIEEE) :
    (evt.mass ≠ .nan →
        (self.passSignalRegion evt = true ∧ self.passSideband evt = false) ∨
          (self.passSignalRegion evt = false ∧ self.passSideband evt = true)) ∧
      (evt.mass = .nan →
        self.passSignalRegion evt = false ∧ self.passSideband evt = false) ∧
      (self.passSignalRegion evt = true ↔
        Double.le (.finite 115) evt.mass = true ∧ Double.le evt.mass (.finite 135) = true) ∧
      (self.passSideband evt = true ↔
        Double.lt evt.mass (.finite 115) = true ∨ Double.lt (.finite 135) evt.mass = true) ∧
      (∀ m : ℚ, evt.mass = .finite m →
        (self.passSignalRegion evt = true ↔ 115 ≤ m ∧ m ≤ 135) ∧
          (self.passSideband evt = true ↔ m < 115 ∨ m > 135)) ∧
      self.passSignalRegion evt = other.passSignalRegion evt ∧
      self.passSideband evt = other.passSideband evt := by
  obtain ⟨mass⟩ := evt
  refine ⟨?_, ?_, ?_, ?_, ?_, rfl, rfl⟩
  · intro hn
    cases mass with
    | finite m =>
      simp only [passSignalRegion, passSideband, Double.le, Double.lt, BLIND_LOW, BLIND_HIGH,
        Bool.and_eq_true, Bool.or_eq_false_iff, Bool.and_eq_false_iff, Bool.or_eq_true,
        decide_eq_true_eq, decide_eq_false_iff_not, not_lt, not_le]
      by_cases h1 : m < 115
      · right; exact ⟨Or.inl h1, Or.inl h1⟩
      · by_cases h2 : 135 < m
        · right; exact ⟨Or.inr h2, Or.inr h2⟩
        · left; exact ⟨⟨not_lt.mp h1, not_lt.mp h2⟩, not_lt.mp h1, not_lt.mp h2⟩
    | posInf => right; exact ⟨rfl, rfl⟩
    | negInf => right; exact ⟨rfl, rfl⟩
    | nan => exact absurd rfl hn
  · intro hn
    simp only at hn
    subst hn
    exact ⟨rfl, rfl⟩
  · simp [passSignalRegion, BLIND_LOW, BLIND_HIGH]
  · simp [passSideband, BLIND_LOW, BLIND_HIGH]
  · intro m hm
    simp only at hm
    subst hm
    simp [passSignalRegion, passSideband, Double.le, Double.lt, BLIND_LOW, BLIND_HIGH]

/-- Witness for C10 (amended): mass 125 is no NaN and lies in the signal region only;
mass 100 and an infinite mass lie in the sideband only; the events of the rational
model have a finite mass. -/
theorem signalRegion_xor_sideband_witness :
    (Double.finite 125 ≠ Double.nan ∧
        EventSelector.passSignalRegion {} scenarioEvent.ieee = true ∧
        EventSelector.passSideband {} scenarioEvent.ieee = false) ∧
      (Double.finite 100 ≠ Double.nan ∧
        EventSelector.passSignalRegion {} ⟨.finite 100⟩ = false ∧
        EventSelector.passSideband {} ⟨.finite 100⟩ = true) ∧
      (Double.posInf ≠ Double.nan ∧
        EventSelector.passSignalRegion {} ⟨.posInf⟩ = false ∧
        EventSelector.passSideband {} ⟨.posInf⟩ = true) := by
  have n1 : Double.finite 125 ≠ Double.nan := by intro h; cases h
  have n2 : Double.finite 100 ≠ Double.nan := by intro h; cases h
  have n3 : Double.posInf ≠ Double.nan := by intro h; cases h
  have t1 := ((signalRegion_xor_sideband {} {} scenarioEvent.ieee).2.2.2.2.1 125 rfl)
  have t2 := ((signalRegion_xor_sideband {} {} ⟨.finite 100⟩).2.2.2.2.1 100 rfl)
  have s1 : EventSelector.passSignalRegion {} scenarioEvent.ieee = true :=
    t1.1.mpr (by norm_num)
  have s2 : EventSelector.passSideband {} ⟨.finite 100⟩ = true :=
    t2.2.mpr (Or.inl (by norm_num))
  have x1 := (signalRegion_xor_sideband {} {} scenarioEvent.ieee).1 n1
  have x2 := (signalRegion_xor_sideband {} {} ⟨.finite 100⟩).1 n2
  refine ⟨⟨n1, s1, ?_⟩, ⟨n2, ?_, s2⟩, ⟨n3, ?_, ?_⟩⟩
  · rcases x1 with h | h
    · exact h.2
    · rw [s1] at h; exact absurd h.1 (by simp)
  · rcases x2 with h | h
    · rw [s2] at h; exact absurd h.2 (by simp)
    · exact h.1
  · rfl
  · rfl

/-- C11: for an event whose `nBLoose` lies in the range of a 32-bit `int`,
`passBtagMultiplicity` is defined and is `true` iff `nBLoose` truncated toward zero
is at least `nBLooseMin`; `nBLoose = 0.9` with `nBLooseMin = 1` and `nBLoose = 1.9`
with `nBLooseMin = 2` both fail. -/
theorem passBtagMultiplicity_trunc (self : EventSelector) (evt : EventData)
    (hlo : -2147483648 ≤ evt.nBLoose) (hhi : evt.nBLoose ≤ 2147483647) :
    self.passBtagMultiplicity evt =
      some (decide (truncTowardZero evt.nBLoose ≥ self.cuts_.nBLooseMin)) := by
  unfold passBtagMultiplicity
  rw [castToInt_of_range _ hlo hhi]
  rfl

/-- Witness for C11: `nBLoose = 0.9` truncates to 0 and fails `nBLooseMin = 1`;
`nBLoose = 1.9` truncates to 1 and fails `nBLooseMin = 2`, and passes
`nBLooseMin = 1`. -/
theorem passBtagMultiplicity_trunc_witness :
    truncTowardZero (9 / 10) = 0 ∧ truncTowardZero (19 / 10) = 1 ∧
      EventSelector.passBtagMultiplicity ⟨{ nBLooseMin := 1 }⟩ { nBLoose := 9 / 10 }
        = some false ∧
      EventSelector.passBtagMultiplicity ⟨{ nBLooseMin := 2 }⟩ { nBLoose := 19 / 10 }
        = some false ∧
      EventSelector.passBtagMultiplicity ⟨{ nBLooseMin := 1 }⟩ { nBLoose := 19 / 10 }
        = some true := by
  have t1 : truncTowardZero (9 / 10) = 0 := by
    simp [truncTowardZero]; norm_num
  have t2 : truncTowardZero (19 / 10) = 1 := by
    simp [truncTowardZero]; norm_num [Int.floor_eq_iff]
  refine ⟨t1, t2, ?_, ?_, ?_⟩
  · rw [passBtagMultiplicity_trunc _ _ (by norm_num) (by norm_num)]
    simp [t1]
  · rw [passBtagMultiplicity_trunc _ _ (by norm_num) (by norm_num)]
    simp [t2]
  · rw [passBtagMultiplicity_trunc _ _ (by norm_num) (by norm_num)]
    simp [t2]

/-- C12: the loose b-tag multiplicity plays no part in the preselection or in the
cutflow: changing `nBLoose` in the events and `nBLooseMin` in the cuts leaves
`passPreselection` unchanged for the same scheme record and key, and leaves
everything `printCutflow` does, its seven counts included, unchanged. -/
theorem btag_not_in_preselection (cuts : SelectionCuts) (m : Int) (key : String)
    (loader other : DataLoader)
    (h : List.Forall₂
      (fun e e2 : TreeEntry => e2.scheme = e.scheme ∧ ∃ x, e2.evt = { e.evt with nBLoose := x })
      loader.tree other.tree) :
    (∀ (evt : EventData) (x : ℚ) (sd : SchemeData),
        EventSelector.passPreselection ⟨{ cuts with nBLooseMin := m }⟩
            { evt with nBLoose := x } sd key =
          EventSelector.passPreselection ⟨cuts⟩ evt sd key) ∧
      printCutflow ⟨{ cuts with nBLooseMin := m }⟩ other key = printCutflow ⟨cuts⟩ loader key ∧
      (printCutflow ⟨{ cuts with nBLooseMin := m }⟩ other key).rows.map CutflowRow.count =
        (printCutflow ⟨cuts⟩ loader key).rows.map CutflowRow.count := by
  have hgen : ∀ (l1 l2 : List TreeEntry),
      List.Forall₂
        (fun e e2 : TreeEntry =>
          e2.scheme = e.scheme ∧ ∃ x, e2.evt = { e.evt with nBLoose := x }) l1 l2 →
      ∀ (acc : List Int),
        l2.foldl (fun cutflow e => cutflowEntry ⟨{ cuts with nBLooseMin := m }⟩ key
            cutflow e.evt (e.scheme key)) acc =
          l1.foldl (fun cutflow e => cutflowEntry ⟨cuts⟩ key
            cutflow e.evt (e.scheme key)) acc := by
    intro l1 l2 h12
    induction h12 with
    | nil => intro acc; rfl
    | cons hhd _ ih =>
      intro acc
      obtain ⟨hs, x, hx⟩ := hhd
      simp only [List.foldl_cons]
      rw [hs, hx, cutflowEntry_btag]
      exact ih _
  have hloop := hgen loader.tree other.tree h
  have hlen : other.getEntries = loader.getEntries := by
    unfold DataLoader.getEntries
    exact h.length_eq.symm
  have hout : printCutflow ⟨{ cuts with nBLooseMin := m }⟩ other key =
      printCutflow ⟨cuts⟩ loader key := by
    unfold printCutflow cutflowLoop
    rw [hloop, hlen]
  exact ⟨fun _ _ _ => rfl, hout, by rw [hout]⟩

/-- Witness for C12: `tenEntriesBtag` differs from `tenEntries` in `nBLoose` only; with
`nBLooseMin` moved from 1 to 5 the b-tag cut itself changes its answer on the first
event, yet `printCutflow` does the same on both sources. -/
theorem btag_not_in_preselection_witness :
    List.Forall₂
        (fun e e2 : TreeEntry => e2.scheme = e.scheme ∧ ∃ x, e2.evt = { e.evt with nBLoose := x })
        tenEntries.tree tenEntriesBtag.tree ∧
      EventSelector.passBtagMultiplicity ⟨{}⟩ { mass := 125, nBLoose := 2 } = some true ∧
      EventSelector.passBtagMultiplicity ⟨{ nBLooseMin := 5 }⟩ { mass := 125, nBLoose := 2 }
        = some false ∧
      printCutflow ⟨{ ({} : SelectionCuts) with nBLooseMin := 5 }⟩ tenEntriesBtag "nonRes" =
        printCutflow ⟨{}⟩ tenEntries "nonRes" := by
  have h : List.Forall₂
      (fun e e2 : TreeEntry => e2.scheme = e.scheme ∧ ∃ x, e2.evt = { e.evt with nBLoose := x })
      tenEntries.tree tenEntriesBtag.tree := by
    simp only [tenEntries, tenEntriesBtag, List.replicate, List.cons_append, List.nil_append,
      List.forall₂_cons, List.Forall₂.nil, and_true, true_and]
    exact ⟨⟨2, rfl⟩, ⟨2, rfl⟩, ⟨2, rfl⟩, ⟨2, rfl⟩, ⟨2, rfl⟩, ⟨2, rfl⟩, ⟨2, rfl⟩, ⟨3, rfl⟩,
      ⟨1, rfl⟩, ⟨1, rfl⟩⟩
  have t : truncTowardZero 2 = 2 := by simp [truncTowardZero]
  have c2 : castToInt 2 = some 2 := by
    rw [castToInt_of_range _ (by norm_num) (by norm_num), t]
  refine ⟨h, ?_, ?_, (btag_not_in_preselection {} 5 "nonRes" tenEntries tenEntriesBtag h).2.1⟩
  · simp [passBtagMultiplicity, c2]
  · simp [passBtagMultiplicity, c2]

/-- C13: for a registered scheme key and a source of `N < 2^31` entries, the seven
counts of the table of `printCutflow` are `N` followed, for `k = 1, …, 6`, by the
number of entries that pass all of the first `k` cuts of the sequence scheme flag,
diphoton mass, photon pT, photon MVA-ID, dijet mass, b-jet pT. -/
theorem printCutflow_counts (self : EventSelector) (loader : DataLoader) (key : String)
    (hkey : findScheme key ≠ none) (hN : loader.getEntries < 2147483648) :
    (printCutflow self loader key).rows.map CutflowRow.count =
      [ (loader.getEntries : Int), (survivors self loader key 1 : Int),
        (survivors self loader key 2 : Int), (survivors self loader key 3 : Int),
        (survivors self loader key 4 : Int), (survivors self loader key 5 : Int),
        (survivors self loader key 6 : Int) ] := by
  rw [(printCutflow_of_registered self loader key hkey).1, cutflowTable_counts,
    cutflowLoop_small self loader key hN]

/-- Witness for C13: of the ten entries of `tenEntries` exactly three pass the scheme
flag, two of those the mass window and none the photon pT cut; the counts are
`[10, 3, 2, 0, 0, 0, 0]`. -/
theorem printCutflow_counts_witness :
    findScheme "nonRes" ≠ none ∧ tenEntries.getEntries < 2147483648 ∧
      survivors {} tenEntries "nonRes" 1 = 3 ∧ survivors {} tenEntries "nonRes" 2 = 2 ∧
      survivors {} tenEntries "nonRes" 3 = 0 ∧
      (printCutflow {} tenEntries "nonRes").rows.map CutflowRow.count =
        [10, 3, 2, 0, 0, 0, 0] := by
  have hN : tenEntries.getEntries < 2147483648 := by
    simp [DataLoader.getEntries, tenEntries]
  obtain ⟨_, s1, s2, s3, s4, s5, s6⟩ := survivors_tenEntries
  refine ⟨findScheme_nonRes, hN, s1, s2, s3, ?_⟩
  rw [printCutflow_counts {} tenEntries "nonRes" findScheme_nonRes hN, s1, s2, s3, s4, s5, s6]
  simp [DataLoader.getEntries, tenEntries]

/-- C14, evaluated at a source of `2^31` entries of which all but the first carry the
scheme flag: the first counter has wrapped to `-2^31`, below the second counter
`2^31 - 1` and below 0. -/
theorem printCutflow_counts_overflow :
    overflowEntries.getEntries = 2147483648 ∧
      (printCutflow {} overflowEntries "nonRes").rows.map CutflowRow.count =
        [-2147483648, 2147483647, 0, 0, 0, 0, 0] := by
  obtain ⟨s0, s1, s2⟩ : survivors {} overflowEntries "nonRes" 0 = 2147483647 + 1 ∧
      survivors {} overflowEntries "nonRes" 1 = 2147483647 ∧
      survivors {} overflowEntries "nonRes" 2 = 0 := survivors_flagged 2147483647
  have hN : overflowEntries.getEntries = 2147483648 := by
    rw [← survivors_zero {} overflowEntries "nonRes", s0]
  have a2 : survivors {} overflowEntries "nonRes" 3 ≤ survivors {} overflowEntries "nonRes" 2 :=
    survivors_anti {} overflowEntries "nonRes" 2
  have a3 : survivors {} overflowEntries "nonRes" 4 ≤ survivors {} overflowEntries "nonRes" 3 :=
    survivors_anti {} overflowEntries "nonRes" 3
  have a4 : survivors {} overflowEntries "nonRes" 5 ≤ survivors {} overflowEntries "nonRes" 4 :=
    survivors_anti {} overflowEntries "nonRes" 4
  have a5 : survivors {} overflowEntries "nonRes" 6 ≤ survivors {} overflowEntries "nonRes" 5 :=
    survivors_anti {} overflowEntries "nonRes" 5
  have s3 : survivors {} overflowEntries "nonRes" 3 = 0 := by omega
  have s4 : survivors {} overflowEntries "nonRes" 4 = 0 := by omega
  have s5 : survivors {} overflowEntries "nonRes" 5 = 0 := by omega
  have s6 : survivors {} overflowEntries "nonRes" 6 = 0 := by omega
  refine ⟨hN, ?_⟩
  rw [(printCutflow_of_registered {} overflowEntries "nonRes" findScheme_nonRes).1,
    cutflowTable_counts, cutflowLoop_eq, s0, s1, s2, s3, s4, s5, s6]
  norm_num [wrapInt32]

/-- Counterexample to C15: for the empty source the total is 0 and the efficiency
reported for step 1 is 0, not 100; so it is for the source of `2^31` entries, whose
first counter has wrapped to a negative value. -/
theorem step_one_efficiency_zero :
    (printCutflow {} {} "nonRes").rows.head?.map CutflowRow.eff = some 0 ∧
      (printCutflow {} overflowEntries "nonRes").rows.head?.map CutflowRow.eff = some 0 := by
  constructor
  · rw [printCutflow_empty_rows]; rfl
  · have hN : overflowEntries.getEntries = 2147483648 := by
      rw [← survivors_zero {} overflowEntries "nonRes"]
      exact (survivors_flagged 2147483647).1
    have hh := cutflowLoop_head {} overflowEntries "nonRes"
    rw [hN] at hh
    have hw : wrapInt32 ((2147483648 : Nat) : Int) = -2147483648 := by norm_num [wrapInt32]
    rw [hw] at hh
    rw [(printCutflow_of_registered {} overflowEntries "nonRes" findScheme_nonRes).1]
    have hl := cutflowLoop_length {} overflowEntries "nonRes"
    cases hc : cutflowLoop {} overflowEntries "nonRes" with
    | nil => rw [hc] at hl; simp at hl
    | cons a t =>
      rw [hc] at hh
      simp only [List.headD_cons] at hh
      simp [cutflowTable, efficiency, hh]

/-- C15 (amended): for a registered scheme key and a non-empty source of fewer than
`2^31` entries, the efficiency reported for step 1 is exactly 100; for the empty
source it is 0. -/
theorem step_one_efficiency (self : EventSelector) (loader : DataLoader) (key : String)
    (hkey : findScheme key ≠ none) :
    (0 < loader.getEntries → loader.getEntries < 2147483648 →
        (printCutflow self loader key).rows.head?.map CutflowRow.eff = some 100) ∧
      (loader.getEntries = 0 →
        (printCutflow self loader key).rows.head?.map CutflowRow.eff = some 0) := by
  rw [(printCutflow_of_registered self loader key hkey).1]
  constructor
  · intro h0 hN
    rw [cutflowLoop_small self loader key hN]
    have hpos : (0 : Int) < (loader.getEntries : Int) := by exact_mod_cast h0
    have hne : ((loader.getEntries : Int) : ℚ) ≠ 0 := by
      exact_mod_cast (Nat.pos_iff_ne_zero.mp h0)
    simp only [cutflowTable, List.headD_cons, List.map_cons, List.head?_cons, Option.map_some',
      efficiency, hpos, gt_iff_lt, if_true]
    rw [mul_div_assoc, div_self hne, mul_one]
  · intro h0
    have hN : loader.getEntries < 2147483648 := by omega
    rw [cutflowLoop_small self loader key hN, h0]
    simp [cutflowTable, efficiency]

/-- Witness for C15 (amended): the ten entries of `tenEntries` give 100 for step 1,
the empty source gives 0. -/
theorem step_one_efficiency_witness :
    findScheme "nonRes" ≠ none ∧ 0 < tenEntries.getEntries ∧
      tenEntries.getEntries < 2147483648 ∧
      (printCutflow {} tenEntries "nonRes").rows.head?.map CutflowRow.eff = some 100 ∧
      ({} : DataLoader).getEntries = 0 ∧
      (printCutflow {} {} "nonRes").rows.head?.map CutflowRow.eff = some 0 := by
  have h1 : 0 < tenEntries.getEntries := by simp [DataLoader.getEntries, tenEntries]
  have h2 : tenEntries.getEntries < 2147483648 := by simp [DataLoader.getEntries, tenEntries]
  have h3 : ({} : DataLoader).getEntries = 0 := rfl
  exact ⟨findScheme_nonRes, h1, h2,
    (step_one_efficiency {} tenEntries "nonRes" findScheme_nonRes).1 h1 h2, h3,
    (step_one_efficiency {} {} "nonRes" findScheme_nonRes).2 h3⟩

/-- C16: in the table of `printCutflow` every row has efficiency `100 * count / total`
when the total (the count of step 1) is positive and 0 when the total is 0, the
quotient being taken under the guard `total > 0` only; the counts
`[10, 3, 2, 0, 0, 0, 0]` give the efficiencies `[100, 30, 20, 0, 0, 0, 0]`. -/
theorem cutflow_efficiency (self : EventSelector) (loader : DataLoader) (key : String)
    (row : CutflowRow) (hrow : row ∈ (printCutflow self loader key).rows) :
    (0 < (printCutflow self loader key).total →
        row.eff = 100 * (row.count : ℚ) / ((printCutflow self loader key).total : ℚ)) ∧
      ((printCutflow self loader key).total = 0 → row.eff = 0) ∧
      (cutflowTable [10, 3, 2, 0, 0, 0, 0]).map CutflowRow.eff = [100, 30, 20, 0, 0, 0, 0] := by
  have hreg : findScheme key ≠ none := by
    intro hf
    unfold printCutflow at hrow
    rw [hf] at hrow
    simp at hrow
  have htot : (printCutflow self loader key).total = (cutflowLoop self loader key).headD 0 := by
    rw [CutflowOutput.total, (printCutflow_of_registered self loader key hreg).1,
      cutflowTable_counts]
  rw [(printCutflow_of_registered self loader key hreg).1] at hrow
  simp only [cutflowTable, List.mem_map] at hrow
  obtain ⟨c, _, rfl⟩ := hrow
  rw [htot]
  refine ⟨?_, ?_, by norm_num [cutflowTable, efficiency]⟩
  · intro ht
    simp only [efficiency, gt_iff_lt, if_pos ht]
  · intro ht
    simp only [efficiency, ht, gt_iff_lt, lt_self_iff_false, if_false]

/-- Witness for C16: in the table of `tenEntries` the total is 10 and the row of count
3 has efficiency 30; in the table of the empty source the total is 0 and the
efficiency 0. -/
theorem cutflow_efficiency_witness :
    (⟨3, 30⟩ : CutflowRow) ∈ (printCutflow {} tenEntries "nonRes").rows ∧
      0 < (printCutflow {} tenEntries "nonRes").total ∧
      (30 : ℚ) = 100 * ((3 : Int) : ℚ) / ((printCutflow {} tenEntries "nonRes").total : ℚ) ∧
      (printCutflow {} tenEntries "nonRes").rows.map CutflowRow.eff
        = [100, 30, 20, 0, 0, 0, 0] ∧
      (⟨0, 0⟩ : CutflowRow) ∈ (printCutflow {} {} "nonRes").rows ∧
      (printCutflow {} {} "nonRes").total = 0 := by
  have hm : (⟨3, 30⟩ : CutflowRow) ∈ (printCutflow {} tenEntries "nonRes").rows := by
    rw [printCutflow_tenEntries_rows]; simp
  have ht : (printCutflow {} tenEntries "nonRes").total = 10 := by
    rw [CutflowOutput.total, printCutflow_tenEntries_rows]; rfl
  have hm0 : (⟨0, 0⟩ : CutflowRow) ∈ (printCutflow {} {} "nonRes").rows := by
    rw [printCutflow_empty_rows]; simp
  have ht0 : (printCutflow {} {} "nonRes").total = 0 := by
    rw [CutflowOutput.total, printCutflow_empty_rows]; rfl
  have hpos : 0 < (printCutflow {} tenEntries "nonRes").total := by rw [ht]; norm_num
  refine ⟨hm, hpos, (cutflow_efficiency {} tenEntries "nonRes" ⟨3, 30⟩ hm).1 hpos, ?_, hm0, ht0⟩
  rw [printCutflow_tenEntries_rows]; rfl

/-- C17: for a scheme key outside the registry, `printCutflow` writes one error line
to the error stream and does nothing else: no branch is bound, no entry is loaded,
no title and no table row is printed; for a key of the registry nothing goes to the
error stream and the table has exactly seven rows. -/
theorem printCutflow_unknown_key (self : EventSelector) (loader : DataLoader)
    (key : String) :
    (key ∉ getSchemes.map Prod.fst →
        printCutflow self loader key =
          { cerr := ["ERROR: Unknown scheme '" ++ key ++ "' for cutflow"]
            branchesBound := false
            entriesLoaded := 0
            title := none
            rows := [] }) ∧
      (key ∈ getSchemes.map Prod.fst →
        (printCutflow self loader key).cerr = [] ∧
          (printCutflow self loader key).rows.length = 7) := by
  constructor
  · intro h
    have hf := (findScheme_eq_none_iff key).mpr h
    unfold printCutflow
    rw [hf]
  · intro h
    have hf : findScheme key ≠ none := fun hn => (findScheme_eq_none_iff key).mp hn h
    obtain ⟨hr, hc, _, _⟩ := printCutflow_of_registered self loader key hf
    refine ⟨hc, ?_⟩
    rw [hr, cutflowTable, List.length_map, cutflowLoop_length]

/-- Witness for C17: `"foo"` is not a registry key and `printCutflow` on the ten
entries only reports the error; `"nonRes"` is one and the table has seven rows. -/
theorem printCutflow_unknown_key_witness :
    "foo" ∉ getSchemes.map Prod.fst ∧
      (printCutflow {} tenEntries "foo").cerr = ["ERROR: Unknown scheme 'foo' for cutflow"] ∧
      (printCutflow {} tenEntries "foo").branchesBound = false ∧
      (printCutflow {} tenEntries "foo").entriesLoaded = 0 ∧
      (printCutflow {} tenEntries "foo").rows = [] ∧
      "nonRes" ∈ getSchemes.map Prod.fst ∧
      (printCutflow {} tenEntries "nonRes").rows.length = 7 := by
  have h1 : "foo" ∉ getSchemes.map Prod.fst := by rw [getSchemes_keys]; decide
  have h2 : "nonRes" ∈ getSchemes.map Prod.fst := by rw [getSchemes_keys]; decide
  have e := (printCutflow_unknown_key {} tenEntries "foo").1 h1
  refine ⟨h1, ?_, ?_, ?_, ?_, h2, ((printCutflow_unknown_key {} tenEntries "nonRes").2 h2).2⟩
  · rw [e]; decide
  · rw [e]
  · rw [e]
  · rw [e]

/-- C18: the scheme registry has exactly the six keys `nonRes`, `nonResReg`,
`nonResReg_DNNpair`, `nonResReg_vbfpair`, `Res`, `Res_DNNpair`, each once; the entry
of a key has branch prefix `key ++ "_"` and category flag `"is_" ++ key`, is resonant
exactly for `Res` and `Res_DNNpair`, and has VBF branches exactly for `nonRes`,
`nonResReg_DNNpair` and `nonResReg_vbfpair`; and the keys of the registry are exactly
the keys for which `passSchemeFlag` returns `true` on some event. -/
theorem getSchemes_registry (self : EventSelector) (key : String) :
    getSchemes.map Prod.fst =
        ["nonRes", "nonResReg", "nonResReg_DNNpair", "nonResReg_vbfpair", "Res",
          "Res_DNNpair"] ∧
      (getSchemes.map Prod.fst).Nodup ∧
      (∀ scheme : JetPairingScheme, (key, scheme) ∈ getSchemes →
        findScheme key = some scheme ∧
          scheme.prefix_ = key ++ "_" ∧ scheme.categoryFlag = "is_" ++ key ∧
          (scheme.isResonant = true ↔ key = "Res" ∨ key = "Res_DNNpair") ∧
          (scheme.hasVbfBranches = true ↔
            key = "nonRes" ∨ key = "nonResReg_DNNpair" ∨ key = "nonResReg_vbfpair")) ∧
      (key ∈ getSchemes.map Prod.fst ↔ ∃ evt : EventData, self.passSchemeFlag evt key = true) := by
  refine ⟨rfl, by rw [getSchemes_keys]; decide, ?_, ?_⟩
  · intro scheme h
    simp only [getSchemes, List.mem_cons, List.mem_singleton, List.not_mem_nil, or_false,
      Prod.mk.injEq] at h
    rcases h with ⟨rfl, rfl⟩ | ⟨rfl, rfl⟩ | ⟨rfl, rfl⟩ | ⟨rfl, rfl⟩ | ⟨rfl, rfl⟩ | ⟨rfl, rfl⟩ <;>
      refine ⟨by simp [findScheme, getSchemes, List.lookup], by decide, by decide, ?_, ?_⟩ <;>
      simp
  · rw [getSchemes_keys]
    simp only [schemeFlagKeys, List.mem_cons, List.mem_singleton, List.not_mem_nil, or_false]
    constructor
    · rintro (rfl | rfl | rfl | rfl | rfl | rfl)
      · exact ⟨{ is_nonRes := 1 }, by simp [passSchemeFlag]; norm_num⟩
      · exact ⟨{ is_nonResReg := 1 }, by simp [passSchemeFlag]; norm_num⟩
      · exact ⟨{ is_nonResReg_DNNpair := 1 }, by simp [passSchemeFlag]; norm_num⟩
      · exact ⟨{ is_nonResReg_vbfpair := 1 }, by simp [passSchemeFlag]; norm_num⟩
      · exact ⟨{ is_Res := 1 }, by simp [passSchemeFlag]; norm_num⟩
      · exact ⟨{ is_Res_DNNpair := 1 }, by simp [passSchemeFlag]; norm_num⟩
    · rintro ⟨evt, h⟩
      unfold passSchemeFlag at h
      by_contra hn
      simp only [not_or] at hn
      obtain ⟨h1, h2, h3, h4, h5, h6⟩ := hn
      simp [h1, h2, h3, h4, h5, h6] at h

/-- Witness for C18: the entry of `Res_DNNpair` in the registry. -/
theorem getSchemes_registry_witness :
    ("Res_DNNpair", (⟨"Resonant (DNN pair)", "Res_DNNpair_", "is_Res_DNNpair", true, false⟩ :
        JetPairingScheme)) ∈ getSchemes ∧
      findScheme "Res_DNNpair" =
        some ⟨"Resonant (DNN pair)", "Res_DNNpair_", "is_Res_DNNpair", true, false⟩ := by
  have h : ("Res_DNNpair",
      (⟨"Resonant (DNN pair)", "Res_DNNpair_", "is_Res_DNNpair", true, false⟩ :
        JetPairingScheme)) ∈ getSchemes := by
    simp [getSchemes]
  exact ⟨h, ((getSchemes_registry {} "Res_DNNpair").2.2.1 _ h).1⟩

/-- C19: when the scan of `parseArgs` is at `--schemes`, the maximal run of the
arguments right after it that do not begin with `'-'` is appended, in order, to the
scheme list, and the scan resumes at the argument after the run (which begins with
`'-'`, if there is one); so for every accepted argument list the scheme list is the
concatenation, over the occurrences of `--schemes`, of these runs; and
`[--schemes, Res, nonRes, --no-blind]` yields schemes `[Res, nonRes]` and
`noBlind = true`. -/
theorem parseArgs_schemes (argv rest : List String) (args res : CLIArgs) :
    parseLoop ("--schemes" :: rest) args =
        parseLoop (rest.dropWhile (fun s => !beginsWithDash s))
          { args with
            schemes := args.schemes ++ rest.takeWhile (fun s => !beginsWithDash s) } ∧
      (∀ s ∈ rest.takeWhile (fun s => !beginsWithDash s), beginsWithDash s = false) ∧
      (∀ s, (rest.dropWhile (fun s => !beginsWithDash s)).head? = some s →
        beginsWithDash s = true) ∧
      (parseArgs argv = .ok res → res.schemes = specSchemes argv) ∧
      parseArgs ["--schemes", "Res", "nonRes", "--no-blind"] =
        .ok { schemes := ["Res", "nonRes"], noBlind := true } := by
  refine ⟨parseLoop_schemes_step rest args, ?_, ?_, ?_, ?_⟩
  · intro s hs
    simpa using List.mem_takeWhile_imp hs
  · intro s hs
    have := List.head?_dropWhile_not (fun s => !beginsWithDash s) rest
    rw [hs] at this
    simpa using this
  · intro h
    have := parseLoop_ok_schemes argv.length argv {} res le_rfl h
    simpa using this
  · simp [parseArgs, parseLoop, schemesWhile, firstChar]

/-- Witness for C19: `[--schemes, Res, nonRes, --no-blind]` is accepted, and its scheme
list is the run `[Res, nonRes]` that follows `--schemes`. -/
theorem parseArgs_schemes_witness :
    parseArgs ["--schemes", "Res", "nonRes", "--no-blind"] =
        .ok { schemes := ["Res", "nonRes"], noBlind := true } ∧
      specSchemes ["--schemes", "Res", "nonRes", "--no-blind"] = ["Res", "nonRes"] ∧
      ["Res", "nonRes"] = specSchemes ["--schemes", "Res", "nonRes", "--no-blind"] :=
  have h : parseArgs ["--schemes", "Res", "nonRes", "--no-blind"] =
      .ok { schemes := ["Res", "nonRes"], noBlind := true } := by
    simp [parseArgs, parseLoop, schemesWhile, firstChar]
  have hs : specSchemes ["--schemes", "Res", "nonRes", "--no-blind"] = ["Res", "nonRes"] := by
    simp [specSchemes, beginsWithDash, List.takeWhile_cons]
  ⟨h, hs, (parseArgs_schemes ["--schemes", "Res", "nonRes", "--no-blind"] [] {}
    { schemes := ["Res", "nonRes"], noBlind := true }).2.2.2.1 h⟩

/-- C20: when the scan of `parseArgs` is at an argument that is not one of `--input`,
`--output-dir`, `--schemes`, `--no-blind`, `--cutflow-only`, the usage message is
written to the error stream and the process ends with exit code 1, no options being
returned; so an argument list in which the scan reaches such an argument ends that
way, at the first one reached. -/
theorem parseArgs_unknown_argument (argv rest : List String) (a : String) (args : CLIArgs) :
    (a ∉ cliFlags → parseLoop (a :: rest) args = .exit 1 (usageMessage a)) ∧
      ((∃ b, b ∈ reachedArgs argv ∧ b ∉ cliFlags) →
        ∃ b, b ∈ reachedArgs argv ∧ b ∉ cliFlags ∧
          parseArgs argv = .exit 1 (usageMessage b)) ∧
      ((∃ b, b ∈ reachedArgs argv ∧ b ∉ cliFlags) → ∀ res, parseArgs argv ≠ .ok res) := by
  refine ⟨parseLoop_unknown a rest args, ?_, ?_⟩
  · intro h
    exact parseLoop_reached argv.length argv {} le_rfl h
  · intro h res hres
    obtain ⟨b, _, _, hb⟩ := parseLoop_reached argv.length argv {} le_rfl h
    unfold parseArgs at hres
    rw [hb] at hres
    cases hres

/-- Witness for C20: in `[--input, f.root, --verbose, --no-blind]` the scan skips the
value `f.root` and reaches `--verbose`, which is no option: the usage message for it
is written and the exit code is 1. -/
theorem parseArgs_unknown_argument_witness :
    "--verbose" ∉ cliFlags ∧
      "--verbose" ∈ reachedArgs ["--input", "f.root", "--verbose", "--no-blind"] ∧
      "f.root" ∉ reachedArgs ["--input", "f.root", "--verbose", "--no-blind"] ∧
      parseArgs ["--input", "f.root", "--verbose", "--no-blind"] =
        .exit 1 (usageMessage "--verbose") := by
  have h1 : "--verbose" ∉ cliFlags := by decide
  have hr : reachedArgs ["--input", "f.root", "--verbose", "--no-blind"] =
      ["--input", "--verbose", "--no-blind"] := by
    simp [reachedArgs]
  refine ⟨h1, by rw [hr]; decide, by rw [hr]; decide, ?_⟩
  have h := (parseArgs_unknown_argument ["--input", "f.root", "--verbose", "--no-blind"]
    ["--no-blind"] "--verbose" { input := "f.root" }).1 h1
  unfold parseArgs
  rw [parseLoop]
  simp only [ne_eq, reduceCtorEq, not_false_eq_true, and_self, if_true, List.tail_cons,
    List.headD_cons]
  exact h

/-- C23: with the default cuts (1/3, 1/4, -0.7, window `[100, 180]`, window
`[70, 190]`, 25), if any of `mass`, `lead_pt`, `sublead_pt`, `lead_mvaID`,
`sublead_mvaID`, the category flag of the scheme, `dijet_mass`, `lead_bjet_pt` or
`sublead_bjet_pt` is a sentinel, `passPreselection` is `false`. -/
theorem default_cuts_reject_sentinel (m : Int) (evt : EventData) (sd : SchemeData)
    (key : String)
    (h : isSentinel evt.mass (-999) = true ∨ isSentinel evt.lead_pt (-999) = true ∨
      isSentinel evt.sublead_pt (-999) = true ∨ isSentinel evt.lead_mvaID (-999) = true ∨
      isSentinel evt.sublead_mvaID (-999) = true ∨
      (∃ f, categoryFlag evt key = some f ∧ isSentinel f (-999) = true) ∨
      isSentinel sd.dijet_mass (-999) = true ∨ isSentinel sd.lead_bjet_pt (-999) = true ∨
      isSentinel sd.sublead_bjet_pt (-999) = true) :
    (({ nBLooseMin := m } : SelectionCuts).leadPtOverMgg = 1 / 3 ∧
        ({ nBLooseMin := m } : SelectionCuts).subleadPtOverMgg = 1 / 4 ∧
        ({ nBLooseMin := m } : SelectionCuts).mvaIdMin = -7 / 10 ∧
        ({ nBLooseMin := m } : SelectionCuts).mggMin = 100 ∧
        ({ nBLooseMin := m } : SelectionCuts).mggMax = 180 ∧
        ({ nBLooseMin := m } : SelectionCuts).mjjMin = 70 ∧
        ({ nBLooseMin := m } : SelectionCuts).mjjMax = 190 ∧
        ({ nBLooseMin := m } : SelectionCuts).bjetPtMin = 25) ∧
      EventSelector.passPreselection ⟨{ nBLooseMin := m }⟩ evt sd key = false := by
  refine ⟨⟨rfl, rfl, rfl, rfl, rfl, rfl, rfl, rfl⟩, ?_⟩
  rw [passPreselection_eq_and]
  rcases h with h | h | h | h | h | h | h | h | h
  · rw [passDiphotonMass_default_of_sentinel m evt h]
    simp only [Bool.and_false, Bool.false_and]
  · rw [passPhotonPt_default_of_sentinel m evt (Or.inl h)]
    simp only [Bool.and_false, Bool.false_and]
  · rw [passPhotonPt_default_of_sentinel m evt (Or.inr h)]
    simp only [Bool.and_false, Bool.false_and]
  · rw [passPhotonMvaId_default_of_sentinel m evt (Or.inl h)]
    simp only [Bool.and_false, Bool.false_and]
  · rw [passPhotonMvaId_default_of_sentinel m evt (Or.inr h)]
    simp only [Bool.and_false, Bool.false_and]
  · obtain ⟨f, hf, hs⟩ := h
    have hlt : ¬ (f > (1 : ℚ) / 2) := by
      intro hgt
      linarith [lt_of_isSentinel hs]
    rw [passSchemeFlag_of_categoryFlag _ evt key f hf, decide_eq_false hlt]
    simp only [Bool.and_false, Bool.false_and]
  · rw [passDijetMass_of_sentinel _ sd h]
    simp only [Bool.and_false, Bool.false_and]
  · rw [passBjetPt_of_sentinel _ sd (Or.inl h)]
    simp only [Bool.and_false, Bool.false_and]
  · rw [passBjetPt_of_sentinel _ sd (Or.inr h)]
    simp only [Bool.and_false, Bool.false_and]

/-- Witness for C23: an event that passes every default cut except that its
`lead_mvaID` is -999 is rejected; so is one whose `nonRes` flag is -999. -/
theorem default_cuts_reject_sentinel_witness :
    isSentinel ({ scenarioEvent with is_nonRes := 1, lead_mvaID := -999 } : EventData).lead_mvaID
        (-999) = true ∧
      EventSelector.passPreselection ⟨{ nBLooseMin := 1 }⟩
        { scenarioEvent with is_nonRes := 1, lead_mvaID := -999 } goodScheme "nonRes" = false ∧
      categoryFlag { scenarioEvent with is_nonRes := -999 } "nonRes" = some (-999) ∧
      EventSelector.passPreselection ⟨{ nBLooseMin := 1 }⟩
        { scenarioEvent with is_nonRes := -999 } goodScheme "nonRes" = false := by
  have hs : isSentinel (-999) (-999) = true := isSentinel_self _
  have hc : categoryFlag { scenarioEvent with is_nonRes := -999 } "nonRes" = some (-999) := by
    simp [categoryFlag, List.lookup]
  exact ⟨hs,
    (default_cuts_reject_sentinel 1 { scenarioEvent with is_nonRes := 1, lead_mvaID := -999 }
      goodScheme "nonRes" (Or.inr (Or.inr (Or.inr (Or.inl hs))))).2,
    hc,
    (default_cuts_reject_sentinel 1 { scenarioEvent with is_nonRes := -999 } goodScheme "nonRes"
      (Or.inr (Or.inr (Or.inr (Or.inr (Or.inr (Or.inl ⟨-999, hc, hs⟩))))))).2⟩

/-- C25: `--input` and `--output-dir` take a value only when another argument follows:
as the last argument each is rejected with the usage message and exit code 1; followed
by an argument, each consumes it as its value whatever it is, and the scan resumes
behind it; so `[--input, --no-blind]` sets `input` to `--no-blind` and leaves
`noBlind` `false`. -/
theorem parseArgs_value_options (v : String) (rest : List String) (args : CLIArgs) :
    parseLoop ["--input"] args = .exit 1 (usageMessage "--input") ∧
      parseLoop ["--output-dir"] args = .exit 1 (usageMessage "--output-dir") ∧
      parseLoop ("--input" :: v :: rest) args = parseLoop rest { args with input := v } ∧
      parseLoop ("--output-dir" :: v :: rest) args =
        parseLoop rest { args with outputDir := v } ∧
      parseArgs ["--input", "--no-blind"] = .ok { input := "--no-blind", noBlind := false } ∧
      parseArgs ["--output-dir", "--cutflow-only"] =
        .ok { outputDir := "--cutflow-only", cutflowOnly := false } := by
  refine ⟨?_, ?_, ?_, ?_, ?_, ?_⟩
  · rw [parseLoop]; simp
  · rw [parseLoop]; simp
  · rw [parseLoop]; simp
  · rw [parseLoop]; simp
  · simp [parseArgs, parseLoop]
  · simp [parseArgs, parseLoop]

/-- C22, evaluated at a source of `2^31` entries that all pass the preselection of
scheme `nonRes`: the number of entries for which `passPreselection` is `true` is
`2^31`, while the last count of the table has wrapped to `-2^31`. -/
theorem cutflow_last_count_overflow :
    (List.replicate 2147483648 passingEntry).countP
        (fun e => EventSelector.passPreselection {} e.evt (e.scheme "nonRes") "nonRes")
        = 2147483648 ∧
      ((printCutflow {} ⟨List.replicate 2147483648 passingEntry⟩ "nonRes").rows.map
        CutflowRow.count).getLast? = some (-2147483648) := by
  constructor
  · rw [List.countP_replicate, if_pos passingEntry_passes]
  · rw [(printCutflow_of_registered {} _ "nonRes" findScheme_nonRes).1, cutflowTable_counts,
      cutflowLoop_eq]
    simp only [survivors_replicate, passingEntry_passesFirst, Nat.le_refl, Nat.reduceLeDiff,
      if_true, Nat.zero_le]
    norm_num [wrapInt32]

/-- C24, evaluated at a source of `2^31` entries with the `nonRes` flag and diphoton
mass 185, for the default cuts and the same cuts with the mass window widened to
`[100, 190]`: the third count is 0 under the default cuts and has wrapped to `-2^31`
under the looser ones. -/
theorem cutflow_loosen_overflow :
    (widerMassCuts.mggMin ≤ ({} : SelectionCuts).mggMin ∧
        widerMassCuts.mggMax ≥ ({} : SelectionCuts).mggMax ∧
        widerMassCuts.leadPtOverMgg ≤ ({} : SelectionCuts).leadPtOverMgg ∧
        widerMassCuts.subleadPtOverMgg ≤ ({} : SelectionCuts).subleadPtOverMgg ∧
        widerMassCuts.mvaIdMin ≤ ({} : SelectionCuts).mvaIdMin ∧
        widerMassCuts.mjjMin ≤ ({} : SelectionCuts).mjjMin ∧
        widerMassCuts.mjjMax ≥ ({} : SelectionCuts).mjjMax ∧
        widerMassCuts.bjetPtMin ≤ ({} : SelectionCuts).bjetPtMin) ∧
      (printCutflow ⟨{}⟩ ⟨List.replicate 2147483648 mass185Entry⟩ "nonRes").rows.map
          CutflowRow.count = [-2147483648, -2147483648, 0, 0, 0, 0, 0] ∧
      (printCutflow ⟨widerMassCuts⟩ ⟨List.replicate 2147483648 mass185Entry⟩ "nonRes").rows.map
          CutflowRow.count = [-2147483648, -2147483648, -2147483648, 0, 0, 0, 0] := by
  refine ⟨by norm_num [widerMassCuts], ?_, ?_⟩
  · rw [(printCutflow_of_registered _ _ "nonRes" findScheme_nonRes).1, cutflowTable_counts,
      mass185_default]
    norm_num [wrapInt32]
  · rw [(printCutflow_of_registered _ _ "nonRes" findScheme_nonRes).1, cutflowTable_counts,
      mass185_wider]
    norm_num [wrapInt32]

end Bbgg
